import Mathlib

set_option autoImplicit false
set_option linter.unusedVariables false

/-!
Verification development for the TDS data-analysis pipeline
(`main.py`, `task_engine.py`, `gemini.py`).

The Python sources are shallowly embedded as pure Lean functions.
External effects (the hosted model, `pip install`, `exec` of generated
code) are parameterized by explicit oracle environments; the filesystem
is threaded as an explicit association list from paths to file contents.
Logging calls that have no effect on control flow or on the files read
by the pipeline are not modelled, except where an expression inside a
logging call can raise (those raises are modelled).
-/

namespace TDS

/-! ### A model of Python/JSON values (results of `json.loads`). -/

inductive Json where
  | jnull : Json
  | jbool : Bool → Json
  | jnum : String → Json
  | jstr : String → Json
  | jarr : List Json → Json
  | jobj : List (String × Json) → Json

/-- Whether a parsed JSON value is a Python dict (`isinstance(x, dict)`). -/
def Json.isObj : Json → Bool
  | .jobj _ => true
  | _ => false

/-- First value bound to a key in a JSON object field list. -/
def lookupField : List (String × Json) → String → Option Json
  | [], _ => none
  | (k0, v0) :: rest, k => if k0 = k then some v0 else lookupField rest k

/-- Field read on a JSON value; `none` mirrors a Python `KeyError`
(or a `TypeError` from subscripting a non-dict). -/
def Json.getField : Json → String → Option Json
  | .jobj fields, k => lookupField fields k
  | _, _ => none

/-- Python dict assignment `d[k] = v`: update in place, or append. -/
def setFieldList : List (String × Json) → String → Json → List (String × Json)
  | [], k, v => [(k, v)]
  | (k0, v0) :: rest, k, v =>
    if k0 = k then (k0, v) :: rest else (k0, v0) :: setFieldList rest k v

/-- `d[k] = v` on a JSON value; a non-dict is returned unchanged
(the source only performs this on values it has checked to be dicts). -/
def Json.setField : Json → String → Json → Json
  | .jobj fields, k, v => .jobj (setFieldList fields k v)
  | j, _, _ => j

/-! ### A small JSON text parser, modelling `json.loads`.
`none` models a raised `json.JSONDecodeError`. -/

def qchar : Char := Char.ofNat 34

def lbrace : Char := Char.ofNat 123

def rbrace : Char := Char.ofNat 125

def isWsChar (c : Char) : Bool :=
  c = ' ' || c = Char.ofNat 10 || c = Char.ofNat 9 || c = Char.ofNat 13

def skipWs (cs : List Char) : List Char := cs.dropWhile isWsChar

def isNumChar (c : Char) : Bool :=
  c.isDigit || c = '-' || c = '+' || c = '.' || c = 'e' || c = 'E'

/-- Parse the remainder of a JSON string literal (opening quote consumed). -/
def pStrAux : List Char → List Char → Option (String × List Char)
  | [], _ => none
  | c :: rest, acc =>
    if c = qchar then some (String.mk acc.reverse, rest)
    else if c = '\\' then
      match rest with
      | [] => none
      | d :: rest2 =>
        let e := if d = 'n' then Char.ofNat 10 else if d = 't' then Char.ofNat 9 else d
        pStrAux rest2 (e :: acc)
    else pStrAux rest (c :: acc)

/-- Check that the input starts with the given keyword characters. -/
def pKeyword : List Char → List Char → Option (List Char)
  | [], cs => some cs
  | k :: ks, c :: cs => if c = k then pKeyword ks cs else none
  | _ :: _, [] => none

/-- Parse a comma-separated list of object fields, with the element value
parser passed as an argument. -/
def pFieldsWith (pv : List Char → Option (Json × List Char)) :
    Nat → List Char → Option (List (String × Json) × List Char)
  | 0, _ => none
  | fuel + 1, cs =>
    match skipWs cs with
    | [] => none
    | c :: rest =>
      if c = rbrace then some ([], rest)
      else if c = qchar then
        match pStrAux rest [] with
        | none => none
        | some (key, cs2) =>
          match skipWs cs2 with
          | ':' :: cs3 =>
            match pv cs3 with
            | none => none
            | some (v, cs4) =>
              match skipWs cs4 with
              | ',' :: cs5 =>
                match pFieldsWith pv fuel cs5 with
                | some (fields, cs6) => some ((key, v) :: fields, cs6)
                | none => none
              | c6 :: cs6 =>
                if c6 = rbrace then some ([(key, v)], cs6) else none
              | [] => none
          | _ => none
      else none

/-- Parse a comma-separated list of array elements. -/
def pElemsWith (pv : List Char → Option (Json × List Char)) :
    Nat → List Char → Option (List Json × List Char)
  | 0, _ => none
  | fuel + 1, cs =>
    match skipWs cs with
    | ']' :: rest => some ([], rest)
    | cs1 =>
      match pv cs1 with
      | none => none
      | some (v, cs2) =>
        match skipWs cs2 with
        | ',' :: cs3 =>
          match pElemsWith pv fuel cs3 with
          | some (vs, cs4) => some (v :: vs, cs4)
          | none => none
        | ']' :: cs3 => some ([v], cs3)
        | _ => none

/-- Fueled parser for a single JSON value. -/
def pJson : Nat → List Char → Option (Json × List Char)
  | 0, _ => none
  | fuel + 1, cs =>
    match skipWs cs with
    | [] => none
    | c :: rest =>
      if c = lbrace then
        match pFieldsWith (pJson fuel) (fuel + 1) rest with
        | some (fields, cs2) => some (.jobj fields, cs2)
        | none => none
      else if c = '[' then
        match pElemsWith (pJson fuel) (fuel + 1) rest with
        | some (vs, cs2) => some (.jarr vs, cs2)
        | none => none
      else if c = qchar then
        match pStrAux rest [] with
        | some (s, cs2) => some (.jstr s, cs2)
        | none => none
      else if c = 't' then
        match pKeyword ['r', 'u', 'e'] rest with
        | some cs2 => some (.jbool true, cs2)
        | none => none
      else if c = 'f' then
        match pKeyword ['a', 'l', 's', 'e'] rest with
        | some cs2 => some (.jbool false, cs2)
        | none => none
      else if c = 'n' then
        match pKeyword ['u', 'l', 'l'] rest with
        | some cs2 => some (.jnull, cs2)
        | none => none
      else if c.isDigit || c = '-' then
        let lex := (c :: rest).takeWhile isNumChar
        some (.jnum (String.mk lex), (c :: rest).dropWhile isNumChar)
      else none

/-- Model of `json.loads`: `none` models a raised decode error. -/
def jsonParse (s : String) : Option Json :=
  match pJson (s.length + 1) s.data with
  | some (j, rest) => if skipWs rest = [] then some j else none
  | none => none

/-! ### Filesystem model: finite map from paths to file contents. -/

structure FS where
  files : List (String × String)
deriving DecidableEq, Repr

def lookupPS : List (String × String) → String → Option String
  | [], _ => none
  | (q, d) :: rest, p => if q = p then some d else lookupPS rest p

def writeList : List (String × String) → String → String → List (String × String)
  | [], p, c => [(p, c)]
  | (q, d) :: rest, p, c =>
    if q = p then (q, c) :: rest else (q, d) :: writeList rest p c

def removeList : List (String × String) → String → List (String × String)
  | [], _ => []
  | (q, d) :: rest, p =>
    if q = p then removeList rest p else (q, d) :: removeList rest p

def FS.read (fs : FS) (p : String) : Option String := lookupPS fs.files p

def FS.write (fs : FS) (p c : String) : FS := ⟨writeList fs.files p c⟩

/-- Appending to a file opened in mode "a". -/
def FS.append (fs : FS) (p c : String) : FS :=
  FS.write fs p (((FS.read fs p).getD "") ++ c)

/-- Deletion of a file; used only to model effects of executed generated code. -/
def FS.remove (fs : FS) (p : String) : FS := ⟨removeList fs.files p⟩

/-! ### Fixed paths inside a request folder (main.py, gemini.py, task_engine.py). -/

def metadataPath (folder : String) : String := folder ++ "/metadata.txt"

def resultPath (folder : String) : String := folder ++ "/result.json"

def csvPath (folder : String) : String := folder ++ "/data.csv"

def llmPath (folder : String) : String := folder ++ "/llm_response.txt"

def execLogPath (folder : String) : String := folder ++ "/execution_result.txt"

/-! ### Helpers from main.py. -/

/-- Python str.split() with no argument: split on whitespace runs,
producing no empty tokens. -/
def pySplitAux : List Char → List Char → List String
  | [], [] => []
  | [], acc => [String.mk acc.reverse]
  | c :: cs, acc =>
    if isWsChar c then
      match acc with
      | [] => pySplitAux cs []
      | _ => String.mk acc.reverse :: pySplitAux cs []
    else pySplitAux cs (c :: acc)

def pySplit (s : String) : List String := pySplitAux s.data []

/-- Python list slice words[-n:]; note that for n = 0 the slice is
words[-0:] = words[0:], i.e. the whole list. -/
def pyLastSlice (words : List String) (n : Nat) : List String :=
  if n = 0 then words else words.drop (words.length - n)

/-- main.last_n_words: join of the last n whitespace-separated tokens
(the Python default for n is 100; call sites here pass n explicitly). -/
def last_n_words (s : String) (n : Nat) : String :=
  String.intercalate " " (pyLastSlice (pySplit s) n)

/-- main.is_csv_empty: the path does not exist or the file has size 0. -/
def is_csv_empty (fs : FS) (p : String) : Bool :=
  match FS.read fs p with
  | none => true
  | some c => c = ""

/-! ### task_engine.run_python_code.
External effects are given by a per-call oracle: the outcome of
pip-installing each library name, the outcome of exec-ing the code
(an error carries the traceback.format_exc() text), and the outcome
of black.format_str. The trace records which installs were submitted,
whether exec was invoked, and the log entries written before and after
the exec call. -/

structure RunOutcome where
  code : Nat
  output : String
deriving DecidableEq, Repr

structure RunTrace where
  installsAttempted : List String
  execInvoked : Bool
  preLog : List String
  postLog : List String
deriving DecidableEq, Repr

structure PyEnv where
  install : String → Option String
  execRes : Except String Unit
  fmt : Option String

/-- The install loop of run_python_code: first failure (with its error),
plus the list of names actually submitted to pip, in order. -/
def installLoop (install : String → Option String) :
    List String → Option (String × String) × List String
  | [] => (none, [])
  | lib :: rest =>
    match install lib with
    | some err => (some (lib, err), [lib])
    | none =>
      match installLoop install rest with
      | (r, att) => (r, lib :: att)

def successMessage : String := "✅ Code executed successfully after installing libraries."

def installFailMessage (lib err : String) : String :=
  "❌ Failed to install library \x27" ++ lib ++ "\x27:\n" ++ err

def execFailMessage (tb : String) : String :=
  "❌ Error during code execution:\n" ++ tb

/-- task_engine.run_python_code. The returned dict {code, output} is
RunOutcome; code 1 is success, 0 failure. The folder argument only
determines the log path, which the caller applies to the filesystem. -/
def run_python_code (env : PyEnv) (code : String) (libraries : List String)
    (folder : String) : RunOutcome × RunTrace :=
  match installLoop env.install libraries with
  | (some (lib, err), att) =>
    let msg := installFailMessage lib err
    (⟨0, msg⟩, ⟨att, false, [msg], []⟩)
  | (none, att) =>
    let fmtd := match env.fmt with
      | some f => f
      | none => code
    let header := "📜 Executing Code:\n" ++ fmtd
    match env.execRes with
    | .ok _ => (⟨1, successMessage⟩, ⟨att, true, [header], [successMessage]⟩)
    | .error tb =>
      let msg := execFailMessage tb
      (⟨0, msg⟩, ⟨att, true, [header], [msg]⟩)

/-! ### gemini.py: persistent chat sessions and the two generation stages.
The two module-level dicts parse_chat_sessions and answer_chat_sessions
are modelled as association lists passed explicitly; the stage kind of
the (stage_kind, session_id) key is which of the two stores is passed. -/

structure Turn where
  role : String
  text : String
deriving DecidableEq, Repr

structure ChatSession where
  system_instruction : String
  history : List Turn
deriving DecidableEq, Repr

def lookupSession : List (String × ChatSession) → String → Option ChatSession
  | [], _ => none
  | (k, s) :: rest, sid => if k = sid then some s else lookupSession rest sid

/-- gemini.get_chat_session: create a session seeded with the system prompt
and an empty history on first use of the key, otherwise return the stored
session unchanged (the system_prompt argument is then ignored). -/
def get_chat_session (sessions_dict : List (String × ChatSession))
    (session_id : String) (system_prompt : String) :
    ChatSession × List (String × ChatSession) :=
  match lookupSession sessions_dict session_id with
  | some chat => (chat, sessions_dict)
  | none =>
    let chat : ChatSession := ⟨system_prompt, []⟩
    (chat, (session_id, chat) :: sessions_dict)

/-- Effect of chat.send_message on the stored session: the user turn and
the model reply are appended to the persistent history. -/
def recordTurns (sessions : List (String × ChatSession))
    (session_id prompt reply : String) : List (String × ChatSession) :=
  sessions.map fun e =>
    if e.1 = session_id then
      (e.1, ⟨e.2.system_instruction,
             e.2.history ++ [⟨"user", prompt⟩, ⟨"model", reply⟩]⟩)
    else e

/-- Python exceptions that the pipeline code can raise or catch. -/
inductive PyErr where
  | fileNotFound : String → PyErr
  | jsonDecode : String → PyErr
  | keyError : String → PyErr
  | sdkError : String → PyErr
deriving DecidableEq, Repr

/-- str(e) for a modelled exception, as used in retry messages. -/
def PyErr.toStr : PyErr → String
  | .fileNotFound p => "[Errno 2] No such file or directory: \x27" ++ p ++ "\x27"
  | .jsonDecode m => m
  | .keyError k => "\x27" ++ k ++ "\x27"
  | .sdkError m => m

def jsonDecodeMessage : String := "Expecting value: line 1 column 1 (char 0)"

/-- Serialization of a JSON value, modelling json.dump / str() of a parsed
reply. Only used to build prompt and log text, which no theorem inspects. -/
def jsonDump : Json → String
  | .jnull => "null"
  | .jbool true => "true"
  | .jbool false => "false"
  | .jnum s => s
  | .jstr s => String.mk (qchar :: (s.data ++ [qchar]))
  | .jarr xs =>
    "[" ++ String.intercalate ", " (xs.attach.map fun x => jsonDump x.1) ++ "]"
  | .jobj fields =>
    String.mk [lbrace] ++
      String.intercalate ", "
        (fields.attach.map fun f =>
          String.mk (qchar :: (f.1.1.data ++ [qchar])) ++ ": " ++ jsonDump f.1.2) ++
      String.mk [rbrace]
decreasing_by
  · have h := List.sizeOf_lt_of_mem x.2
    simp_wf
    omega
  · have h := List.sizeOf_lt_of_mem f.2
    have h2 : sizeOf f.1.2 < sizeOf f.1 := by
      obtain ⟨⟨a, b⟩, hm⟩ := f
      simp
    simp_wf
    omega

def optStr : Option String → String
  | some s => s
  | none => "None"

/-- Abridged form of the collection-stage system prompt (gemini.py line 44);
the prompt wording is opaque data for every property proved here. -/
def parseSystemPrompt (folder : String) : String :=
  "You are a precise data extraction and analysis assistant. Respond only in valid JSON with fields code, libraries and questions. Always save the datasets in " ++
    folder ++ " and record metadata in " ++ metadataPath folder ++ "."

def parseRetryPrompt (m : String) : String :=
  "Previous code failed with: <error_snippet>" ++ m ++ "</error_snippet>. Please fix the code."

/-- Abridged form of the fresh collection-stage prompt (gemini.py line 90). -/
def parseFreshPrompt (question_text uploaded_files : Option String)
    (folder : String) : String :=
  "Question: " ++ optStr question_text ++ " Uploaded files: " ++
    optStr uploaded_files ++
    " Generate Python code that collects the data needed for the question, saves it to " ++
    csvPath folder ++ ", and generates " ++ metadataPath folder ++
    " with the required metadata."

/-- Abridged form of the analysis-stage system prompt (gemini.py line 130). -/
def answerSystemPrompt (folder : String) : String :=
  "You are a precise Python code generation assistant. Respond only in valid JSON with fields code and libraries. Save the answer to the question as a JSON file named " ++
    resultPath folder ++ "."

def answerRetryPrompt (m : String) : String :=
  "Previous code failed: <error_snippet>" ++ m ++ "</error_snippet>. Please correct it."

/-- Abridged form of the fresh analysis-stage prompt (gemini.py line 170). -/
def answerFreshPrompt (question_text : Option String) (metadata folder : String) :
    String :=
  "Question: " ++ optStr question_text ++ " Metadata: " ++ metadata ++
    " Generate Python code that answers the question and saves the result to " ++
    resultPath folder ++ "."

/-- gemini.parse_question_with_llm. The reply argument is the outcome of
chat.send_message (an error is a fault from the model client). Before the
turn is sent, a metadata.txt placeholder is created empty if absent. The
reply text is parsed with json.loads and returned without any check of
its fields; a non-parseable reply raises json.JSONDecodeError. -/
def parse_question_with_llm (reply : Except String String)
    (sessions : List (String × ChatSession)) (fs : FS)
    (question_text uploaded_files : Option String) (folder session_id : String)
    (retry_message : Option String) :
    Except PyErr Json × List (String × ChatSession) × FS :=
  let systemPrompt := parseSystemPrompt folder
  let s1 := (get_chat_session sessions session_id systemPrompt).2
  let prompt := match retry_message with
    | some m => parseRetryPrompt m
    | none => parseFreshPrompt question_text uploaded_files folder
  let mpath := metadataPath folder
  let fs1 := if (FS.read fs mpath).isSome then fs else FS.write fs mpath ""
  match reply with
  | .error m => (.error (.sdkError m), s1, fs1)
  | .ok text =>
    let s2 := recordTurns s1 session_id prompt text
    match jsonParse text with
    | none => (.error (.jsonDecode jsonDecodeMessage), s2, fs1)
    | some j => (.ok j, s2, fs1)

/-- gemini.answer_with_data. Reads metadata.txt first (raising
FileNotFoundError if absent), creates an empty result.json placeholder
if absent before the turn is sent, then sends and parses the reply like
parse_question_with_llm, again without any field validation. -/
def answer_with_data (reply : Except String String)
    (sessions : List (String × ChatSession)) (fs : FS)
    (question_text : Option String) (folder session_id : String)
    (retry_message : Option String) :
    Except PyErr Json × List (String × ChatSession) × FS :=
  let mpath := metadataPath folder
  match FS.read fs mpath with
  | none => (.error (.fileNotFound mpath), sessions, fs)
  | some metadata =>
    let systemPrompt := answerSystemPrompt folder
    let s1 := (get_chat_session sessions session_id systemPrompt).2
    let prompt := match retry_message with
      | some m => answerRetryPrompt m
      | none => answerFreshPrompt question_text metadata folder
    let rpath := resultPath folder
    let fs1 := if (FS.read fs rpath).isSome then fs else FS.write fs rpath ""
    match reply with
    | .error m => (.error (.sdkError m), s1, fs1)
    | .ok text =>
      let s2 := recordTurns s1 session_id prompt text
      match jsonParse text with
      | none => (.error (.jsonDecode jsonDecodeMessage), s2, fs1)
      | some j => (.ok j, s2, fs1)

/-! ### The orchestrator (main.analyze), lines 120-313 of main.py.
The per-request handler is a pure function of an oracle environment:
the reply stream of each chat stage, and per-run-call pip/exec oracles
together with the filesystem effect of the executed generated code. -/

/-- response["code"] as a string, as consumed by run_python_code. A missing
key is the KeyError raised at the access site; a non-dict response or a
non-string value is conflated into the same modelled exception. -/
def jGetStr (j : Json) (k : String) : Except PyErr String :=
  match j.getField k with
  | some (.jstr s) => .ok s
  | _ => .error (.keyError k)

/-- response["libraries"] as a list of install names. Non-string members
are passed through their serialized form (pip then fails on them via the
install oracle); a missing key or non-list value raises at the access
site. -/
def jGetLibs (j : Json) (k : String) : Except PyErr (List String) :=
  match j.getField k with
  | some (.jarr xs) =>
    .ok (xs.map fun x => match x with
      | .jstr s => s
      | v => jsonDump v)
  | _ => .error (.keyError k)

/-- response[k] with no shape requirement (used for "questions"). -/
def jGetAny (j : Json) (k : String) : Except PyErr Json :=
  match j.getField k with
  | some v => .ok v
  | none => .error (.keyError k)

/-- Observable actions of one pipeline run: model-client invocations of
each stage, run_python_code calls, and delays (the source performs none;
the constructor exists so their absence is statable). -/
inductive Ev where
  | genParse : Ev
  | genAnswer : Ev
  | runCall : Ev
  | sleep : Nat → Ev
deriving DecidableEq, Repr

def Ev.isSleep : Ev → Bool
  | .sleep _ => true
  | _ => false

structure SysState where
  fs : FS
  parseSessions : List (String × ChatSession)
  answerSessions : List (String × ChatSession)
  nParse : Nat
  nAnswer : Nat
  nRun : Nat
  events : List Ev

structure Env where
  sendParse : Nat → Except String String
  sendAnswer : Nat → Except String String
  pyEnv : Nat → PyEnv
  execFx : Nat → FS → FS

/-- One parse_question_with_llm call made by the orchestrator: consumes
the next parse-stage reply and records one model invocation. -/
def callParse (env : Env) (st : SysState) (qt uf : Option String)
    (folder session_id : String) (rm : Option String) :
    Except PyErr Json × SysState :=
  let r :=
    parse_question_with_llm (env.sendParse st.nParse) st.parseSessions st.fs
      qt uf folder session_id rm
  (r.1, { st with fs := r.2.2, parseSessions := r.2.1, nParse := st.nParse + 1,
                  events := st.events ++ [Ev.genParse] })

/-- One answer_with_data call made by the orchestrator. When metadata.txt
is absent the call raises before the model is invoked, so no reply is
consumed and no invocation is recorded. -/
def callAnswer (env : Env) (st : SysState) (qt : Option String)
    (folder session_id : String) (rm : Option String) :
    Except PyErr Json × SysState :=
  match FS.read st.fs (metadataPath folder) with
  | none => (.error (.fileNotFound (metadataPath folder)), st)
  | some _ =>
    let r :=
      answer_with_data (env.sendAnswer st.nAnswer) st.answerSessions st.fs
        qt folder session_id rm
    (r.1, { st with fs := r.2.2, answerSessions := r.2.1,
                    nAnswer := st.nAnswer + 1,
                    events := st.events ++ [Ev.genAnswer] })

/-- One run_python_code call made by the orchestrator: log entries are
appended to the execution log, and the filesystem effect of the executed
code is applied between the pre- and post-execution entries. -/
def callRun (env : Env) (st : SysState) (code : String) (libs : List String)
    (folder : String) : RunOutcome × SysState :=
  let i := st.nRun
  let r := run_python_code (env.pyEnv i) code libs folder
  let fs1 := r.2.preLog.foldl (fun fs e => FS.append fs (execLogPath folder) e) st.fs
  let fs2 := if r.2.execInvoked then env.execFx i fs1 else fs1
  let fs3 := r.2.postLog.foldl (fun fs e => FS.append fs (execLogPath folder) e) fs2
  (r.1, { st with fs := fs3, nRun := i + 1, events := st.events ++ [Ev.runCall] })

/-- main.py lines 120-149: the collection-stage generation retry loop.
fuel is max_attempts - attempt. A fault marks error_occured and consumes
an attempt; an ok non-dict reply also consumes an attempt while leaving
error_occured clear; an ok dict reply gets a comment field, is dumped to
llm_response.txt, and breaks the loop. -/
def step3Loop (env : Env) (folder session_id : String) (qt uf : Option String) :
    Nat → Nat → Bool → String → Option Json → SysState → Option Json × SysState
  | 0, _, _, _, resp, st => (resp, st)
  | fuel + 1, attempt, errOcc, retryMsg, resp, st =>
    let c :=
      if errOcc then callParse env st none none folder session_id (some retryMsg)
      else callParse env st qt uf folder session_id none
    match c with
    | (.ok j, st1) =>
      if j.isObj then
        let j1 := j.setField "comment"
          (Json.jstr ("Step-3: Getting scrap code and metadata from llm. Tries count = %d " ++ toString attempt))
        (some j1, { st1 with fs := FS.append st1.fs (llmPath folder) (jsonDump j1) })
      else
        step3Loop env folder session_id qt uf fuel (attempt + 1) errOcc retryMsg (some j) st1
    | (.error e, st1) =>
      step3Loop env folder session_id qt uf fuel (attempt + 1) true
        (last_n_words e.toStr 100 ++ "Provide a valid JSON response") resp st1

/-- main.py lines 184-196: the inner empty-data.csv retry loop. The parse
call here is not inside any try, so its faults propagate out of the
handler, as do KeyErrors from the field accesses at the run call. -/
def csvLoop (env : Env) (folder session_id : String) :
    Nat → Nat → Json → RunOutcome → SysState →
    Except PyErr (Json × RunOutcome) × SysState
  | 0, _, resp, er, st => (.ok (resp, er), st)
  | fuel + 1, csvRetry, resp, er, st =>
    if FS.read st.fs (csvPath folder) = some "" then
      match callParse env st none none folder session_id
        (some "There is no content present in scraped data files.") with
      | (.error e, st1) => (.error e, st1)
      | (.ok r, st1) =>
        let r1 := r.setField "comment"
          (Json.jstr ("data.csv is present but empty. Retrying code generation and  execution. Attempt %d, " ++ toString (csvRetry + 1)))
        let st2 := { st1 with fs := FS.append st1.fs (llmPath folder) (jsonDump r1) }
        match jGetStr r1 "code" with
        | .error e => (.error e, st2)
        | .ok code =>
          match jGetLibs r1 "libraries" with
          | .error e => (.error e, st2)
          | .ok libs =>
            let c := callRun env st2 code libs folder
            csvLoop env folder session_id fuel (csvRetry + 1) r1 c.1 c.2
    else (.ok (resp, er), st)

/-- main.py lines 166-198: the collection-stage execution retry loop. The
parse retry is inside a try (a fault only logs and keeps the previous
response), then the returned code is executed unconditionally; the csv
loop runs after each execution. -/
def step4Loop (env : Env) (folder session_id : String) :
    Nat → Nat → Json → RunOutcome → SysState →
    Except PyErr (Json × RunOutcome) × SysState
  | 0, _, resp, er, st => (.ok (resp, er), st)
  | fuel + 1, count, resp, er, st =>
    if er.code = 0 then
      let retryMsg := last_n_words er.output 100
      let p :=
        match callParse env st none none folder session_id (some retryMsg) with
        | (.ok r, s) =>
          let r1 := r.setField "comment"
            (Json.jstr ("Step-4: Error occured while scrapping. Tries count = %d, " ++ toString count))
          (r1, { s with fs := FS.append s.fs (llmPath folder) (jsonDump r1) })
        | (.error _, s) => (resp, s)
      match jGetStr p.1 "code" with
      | .error e => (.error e, p.2)
      | .ok code =>
        match jGetLibs p.1 "libraries" with
        | .error e => (.error e, p.2)
        | .ok libs =>
          let c := callRun env p.2 code libs folder
          match csvLoop env folder session_id 3 0 p.1 c.1 c.2 with
          | (.error e, st3) => (.error e, st3)
          | (.ok (resp2, er2), st3) =>
            step4Loop env folder session_id fuel (count + 1) resp2 er2 st3
    else (.ok (resp, er), st)

/-- main.py lines 209-230: the analysis-stage generation retry loop. The
break happens only in the fresh branch (and only after a logging access
to gpt_ans["code"] that can itself fault); after a recovery through the
retry branch the loop keeps calling the model until attempts run out. -/
def step5Loop (env : Env) (folder session_id : String) (questions : Json) :
    Nat → Nat → Bool → String → Option Json → SysState → Option Json × SysState
  | 0, _, _, _, g, st => (g, st)
  | fuel + 1, attempt, errOcc, retryMsg, g, st =>
    if errOcc then
      match callAnswer env st none folder session_id (some retryMsg) with
      | (.ok ga, st1) =>
        step5Loop env folder session_id questions fuel (attempt + 1) true retryMsg (some ga) st1
      | (.error e, st1) =>
        step5Loop env folder session_id questions fuel (attempt + 1) true
          (last_n_words e.toStr 100) g st1
    else
      match callAnswer env st (some (jsonDump questions)) folder session_id none with
      | (.ok ga, st1) =>
        match jGetStr ga "code" with
        | .ok _ =>
          if ga.isObj then (some ga, st1)
          else step5Loop env folder session_id questions fuel (attempt + 1) false retryMsg (some ga) st1
        | .error e =>
          step5Loop env folder session_id questions fuel (attempt + 1) true
            (last_n_words e.toStr 100) (some ga) st1
      | (.error e, st1) =>
        step5Loop env folder session_id questions fuel (attempt + 1) true
          (last_n_words e.toStr 100) g st1

/-- main.py lines 236-247: the first analysis execution. The try only
catches faults from the field accesses (run_python_code cannot raise);
everything in the except branch is unprotected. -/
def step6Try (env : Env) (folder session_id : String) (g : Json) (st : SysState) :
    Except PyErr (Json × RunOutcome) × SysState :=
  match jGetStr g "code", jGetLibs g "libraries" with
  | .ok code, .ok libs =>
    let c := callRun env st code libs folder
    (.ok (g, c.1), c.2)
  | _, _ =>
    match callAnswer env st none folder session_id (some "Please follow the json structure") with
    | (.error e, st1) => (.error e, st1)
    | (.ok g2, st1) =>
      match jGetStr g2 "code" with
      | .error e => (.error e, st1)
      | .ok code2 =>
        match jGetLibs g2 "libraries" with
        | .error e => (.error e, st1)
        | .ok libs2 =>
          let c := callRun env st1 code2 libs2 folder
          (.ok (g2, c.1), c.2)

/-- main.py lines 250-276: the analysis execution retry loop. In the
except path of the second try the counter is decremented and immediately
re-incremented, so the loop need not progress; fuel models that, and a
none result corresponds to the source spinning without bound. -/
def step6Loop (env : Env) (folder session_id : String) :
    Nat → Nat → Bool → Json → RunOutcome → SysState →
    Option (Json × RunOutcome) × SysState
  | 0, count, _, g, fr, st =>
    if fr.code = 0 && count < 3 then (none, st) else (some (g, fr), st)
  | fuel + 1, count, jsonStr, g, fr, st =>
    if fr.code = 0 && count < 3 then
      let rm := if jsonStr then last_n_words fr.output 100
                else "follow the structure \x7b\x27code\x27: \x27\x27, \x27libraries\x27: \x27\x27\x7d"
      let t1 :=
        match callAnswer env st none folder session_id (some rm) with
        | (.ok ga, s) =>
          match jGetStr ga "code" with
          | .ok _ => (ga, jsonStr, s)
          | .error _ => (ga, false, s)
        | (.error _, s) => (g, false, s)
      match jGetStr t1.1 "code" with
      | .error _ => step6Loop env folder session_id fuel count t1.2.1 t1.1 fr t1.2.2
      | .ok code =>
        match jGetLibs t1.1 "libraries" with
        | .error _ => step6Loop env folder session_id fuel count t1.2.1 t1.1 fr t1.2.2
        | .ok libs =>
          let c := callRun env t1.2.2 code libs folder
          step6Loop env folder session_id fuel (count + 1) true t1.1 c.1 c.2
    else (some (g, fr), st)

/-- main.py lines 281-301: the final recovery block. One try whose except
clause is pass, so every fault falls through to the terminal read; the
gemini calls here omit session_id, using the gemini defaults. -/
def lastTry (env : Env) (folder : String) (qt uf : Option String) (st : SysState) :
    Option Json × SysState :=
  match callParse env st qt uf folder "default_parse" none with
  | (.error _, st1) => (none, st1)
  | (.ok r, st1) =>
    match jGetStr r "code" with
    | .error _ => (none, st1)
    | .ok code =>
      match jGetLibs r "libraries" with
      | .error _ => (none, st1)
      | .ok libs =>
        let c := callRun env st1 code libs folder
        match jGetAny r "questions" with
        | .error _ => (none, c.2)
        | .ok q =>
          match callAnswer env c.2 (some (jsonDump q)) folder "default_answer" none with
          | (.error _, st3) => (none, st3)
          | (.ok g, st3) =>
            match jGetStr g "code" with
            | .error _ => (none, st3)
            | .ok code2 =>
              match jGetLibs g "libraries" with
              | .error _ => (none, st3)
              | .ok libs2 =>
                let c2 := callRun env st3 code2 libs2 folder
                match FS.read c2.2.fs (resultPath folder) with
                | none => (none, c2.2)
                | some content =>
                  match jsonParse content with
                  | none => (none, c2.2)
                  | some data => (some data, c2.2)

inductive ApiResult where
  | jsonContent : Json → ApiResult
  | message : String → ApiResult
  | messageRaw : String → String → ApiResult
  | raised : PyErr → ApiResult
  | diverged : ApiResult

/-- main.py lines 302-313: the terminal read of result.json. The open()
call is outside any try, so a missing file raises out of the handler; a
present file that fails json.load yields the structured message together
with the raw file content. -/
def finalRead (fs : FS) (folder : String) : ApiResult :=
  match FS.read fs (resultPath folder) with
  | none => .raised (.fileNotFound (resultPath folder))
  | some content =>
    match jsonParse content with
    | some data => .jsonContent data
    | none =>
      .messageRaw ("Error occured while processing result.json: " ++ jsonDecodeMessage)
        content

def parseFailMessage : String :=
  "Error: Could not get valid response from LLM after retries."

def scrapFailMessage : String := "error occured while scrapping."

def answerFailMessage : String :=
  "Error: Could not get valid response from answer_with_data after retries."

/-- main.analyze from the first model call (line 120) to the response.
The upload handling that precedes it supplies the question text, the
uploaded-file index and the request folder, which are parameters here;
the module-level session stores and the filesystem enter through the
initial state. fuel6 bounds the analysis execution retry loop, whose
source can fail to progress. -/
def analyze (env : Env) (fuel6 : Nat) (folder request_id : String)
    (qt uf : Option String) (st0 : SysState) : ApiResult × SysState :=
  match step3Loop env folder request_id qt uf 3 0 false "" none st0 with
  | (respOpt, st1) =>
    match respOpt with
    | none => (.message parseFailMessage, st1)
    | some resp =>
      if resp.isObj = false then (.message parseFailMessage, st1)
      else
        match jGetStr resp "code" with
        | .error e => (.raised e, st1)
        | .ok code =>
          match jGetLibs resp "libraries" with
          | .error e => (.raised e, st1)
          | .ok libs =>
            let c := callRun env st1 code libs folder
            match step4Loop env folder request_id 3 0 resp c.1 c.2 with
            | (.error e, st3) => (.raised e, st3)
            | (.ok (resp2, er2), st3) =>
              if er2.code ≠ 1 then (.message scrapFailMessage, st3)
              else
                match jGetAny resp2 "questions" with
                | .error e => (.raised e, st3)
                | .ok questions =>
                  match step5Loop env folder request_id questions 3 0 false "" none st3 with
                  | (gOpt, st4) =>
                    match gOpt with
                    | none => (.message answerFailMessage, st4)
                    | some g =>
                      if g.isObj = false then (.message answerFailMessage, st4)
                      else
                        match step6Try env folder request_id g st4 with
                        | (.error e, st5) => (.raised e, st5)
                        | (.ok (g1, fr0), st5) =>
                          match step6Loop env folder request_id fuel6 0 true g1 fr0 st5 with
                          | (none, st6) => (.diverged, st6)
                          | (some (g2, fr2), st6) =>
                            if fr2.code = 1 then (finalRead st6.fs folder, st6)
                            else
                              match lastTry env folder qt uf st6 with
                              | (some data, st7) => (.jsonContent data, st7)
                              | (none, st7) => (finalRead st7.fs folder, st7)

/-! ### Event counters. -/

def countParseEv : List Ev → Nat
  | [] => 0
  | Ev.genParse :: r => countParseEv r + 1
  | _ :: r => countParseEv r

def countAnswerEv : List Ev → Nat
  | [] => 0
  | Ev.genAnswer :: r => countAnswerEv r + 1
  | _ :: r => countAnswerEv r

def countRunEv : List Ev → Nat
  | [] => 0
  | Ev.runCall :: r => countRunEv r + 1
  | _ :: r => countRunEv r

/-- No delay of any duration occurs in the event list. -/
def sleepFree (l : List Ev) : Prop := ∀ e ∈ l, e.isSleep = false

/-! ### General lemmas about the embedded operations. -/

theorem pyLastSlice_nil (n : Nat) : pyLastSlice [] n = [] := by
  unfold pyLastSlice
  split <;> simp

theorem installLoop_all_ok (inst : String → Option String) :
    ∀ libs : List String, (∀ l ∈ libs, inst l = none) →
      installLoop inst libs = (none, libs) := by
  intro libs
  induction libs with
  | nil => intro _; rfl
  | cons lib rest ih =>
    intro h
    have hlib : inst lib = none := h lib (List.mem_cons_self lib rest)
    have hrest : ∀ l ∈ rest, inst l = none :=
      fun l hl => h l (List.mem_cons_of_mem lib hl)
    simp [installLoop, hlib, ih hrest]

theorem installLoop_first_fail (inst : String → Option String) (bad err : String)
    (post : List String) (hbad : inst bad = some err) :
    ∀ pre : List String, (∀ l ∈ pre, inst l = none) →
      installLoop inst (pre ++ bad :: post) = (some (bad, err), pre ++ [bad]) := by
  intro pre
  induction pre with
  | nil => intro _; simp [installLoop, hbad]
  | cons lib rest ih =>
    intro h
    have hlib : inst lib = none := h lib (List.mem_cons_self lib rest)
    have hrest : ∀ l ∈ rest, inst l = none :=
      fun l hl => h l (List.mem_cons_of_mem lib hl)
    simp [installLoop, hlib, ih hrest]

/-! ### Claim C7 (tail truncation of retry hints). -/

/-- Claim C7, counterexample: the claim asserts that for every n greater
than or equal to 0 the result has at most n tokens, but last_n_words with
n = 0 hits the Python words[-0:] = words quirk and returns every token:
on "a b" it returns "a b", which has 2 tokens, not at most 0. -/
theorem C7_counterexample :
    last_n_words "a b" 0 = "a b" ∧
    ¬ (pySplit (last_n_words "a b" 0)).length ≤ 0 := by
  exact ⟨rfl, by decide⟩

/-- Claim C7 as amended: for n at least 1, last_n_words keeps at most n
tokens; for every n the kept tokens are a suffix of the token sequence of
the input; the empty string always yields the empty result. For n = 0 the
whole token sequence is returned (see the counterexample). -/
theorem C7_tail_truncation (s : String) (n : Nat) :
    pyLastSlice (pySplit s) n <:+ pySplit s ∧
    (1 ≤ n → (pyLastSlice (pySplit s) n).length ≤ n) ∧
    last_n_words "" n = "" := by
  refine ⟨?_, ?_, ?_⟩
  · unfold pyLastSlice
    split
    · exact List.suffix_refl _
    · exact List.drop_suffix _ _
  · intro hn
    unfold pyLastSlice
    have hne : ¬ n = 0 := by omega
    simp only [hne, if_false]
    rw [List.length_drop]
    omega
  · show String.intercalate " " (pyLastSlice (pySplit "") n) = ""
    have h0 : pySplit "" = [] := rfl
    rw [h0, pyLastSlice_nil]
    rfl

/-- Witness for C7_tail_truncation at s = "a b c", n = 2. -/
theorem C7_tail_truncation_witness :
    pyLastSlice (pySplit "a b c") 2 <:+ pySplit "a b c" ∧
    (pyLastSlice (pySplit "a b c") 2).length ≤ 2 ∧
    last_n_words "" 2 = "" := by
  obtain ⟨h1, h2, h3⟩ := C7_tail_truncation "a b c" 2
  exact ⟨h1, h2 (by decide), h3⟩

/-! ### Claim C6 (idempotent session reuse). -/

/-- Claim C6: on a store with no entry for the key, get_chat_session
creates a session seeded with the given system instruction and an empty
turn history; a second call with the same key returns that same session
and leaves the store unchanged, even when the instruction argument
differs. The stage kind of the (stage_kind, session_id) key is which of
the two module-level stores is passed as the dictionary. -/
theorem C6_session_reuse (sd : List (String × ChatSession)) (sid i1 i2 : String)
    (h : lookupSession sd sid = none) :
    (get_chat_session sd sid i1).1 = ⟨i1, []⟩ ∧
    (get_chat_session (get_chat_session sd sid i1).2 sid i2).1 =
      (get_chat_session sd sid i1).1 ∧
    (get_chat_session (get_chat_session sd sid i1).2 sid i2).2 =
      (get_chat_session sd sid i1).2 := by
  simp [get_chat_session, lookupSession, h]

/-- Witness for C6_session_reuse: fresh store, differing instructions. -/
theorem C6_session_reuse_witness :
    (get_chat_session [] "s1" "sys A").1 = ⟨"sys A", []⟩ ∧
    (get_chat_session (get_chat_session [] "s1" "sys A").2 "s1" "sys B").1 =
      (get_chat_session [] "s1" "sys A").1 ∧
    (get_chat_session (get_chat_session [] "s1" "sys A").2 "s1" "sys B").2 =
      (get_chat_session [] "s1" "sys A").2 :=
  C6_session_reuse [] "s1" "sys A" "sys B" rfl

/-! ### Claim C2 (fault containment in run_python_code). -/

/-- Claim C2: run_python_code always returns an outcome whose status is
Failure (0) or Success (1) - the Lean embedding returns RunOutcome
totally, mirroring that no fault escapes the component - and whenever
installation succeeds and executing the generated code raises, the
outcome is Failure carrying the full traceback text. -/
theorem C2_fault_containment (env : PyEnv) (code : String) (libs : List String)
    (folder : String) :
    ((run_python_code env code libs folder).1.code = 0 ∨
      (run_python_code env code libs folder).1.code = 1) ∧
    (∀ tb, (∀ l ∈ libs, env.install l = none) → env.execRes = .error tb →
      (run_python_code env code libs folder).1 = ⟨0, execFailMessage tb⟩) := by
  constructor
  · unfold run_python_code
    rcases hIL : installLoop env.install libs with ⟨fail, att⟩
    cases fail with
    | some p =>
      rcases p with ⟨lib, err⟩
      simp
    | none =>
      cases henv : env.execRes with
      | ok u => simp [henv]
      | error tb => simp [henv]
  · intro tb hall hexec
    unfold run_python_code
    rw [installLoop_all_ok env.install libs hall]
    simp [hexec]

/-- Witness for C2_fault_containment: one install that succeeds, an exec
fault carrying a traceback. -/
theorem C2_fault_containment_witness :
    ((run_python_code ⟨fun _ => none, .error "Traceback: boom", none⟩
        "x = 1/0" ["requests"] "uploads").1.code = 0 ∨
      (run_python_code ⟨fun _ => none, .error "Traceback: boom", none⟩
        "x = 1/0" ["requests"] "uploads").1.code = 1) ∧
    (run_python_code ⟨fun _ => none, .error "Traceback: boom", none⟩
        "x = 1/0" ["requests"] "uploads").1 = ⟨0, execFailMessage "Traceback: boom"⟩ := by
  refine ⟨(C2_fault_containment _ _ _ _).1, ?_⟩
  exact (C2_fault_containment _ _ _ _).2 "Traceback: boom" (by decide) rfl

/-! ### Claim C4 (install failure short-circuits, code never executed). -/

/-- Claim C4: with the first failing dependency in the middle of the
declared list, run_python_code returns Failure with the install-error
message for that dependency, the names submitted to pip are exactly the
prefix up to and including the failing one (later names are never
submitted), and the generated code is never executed. -/
theorem C4_install_short_circuit (env : PyEnv) (code folder : String)
    (pre post : List String) (bad err : String)
    (hpre : ∀ l ∈ pre, env.install l = none) (hbad : env.install bad = some err) :
    (run_python_code env code (pre ++ bad :: post) folder).1 =
      ⟨0, installFailMessage bad err⟩ ∧
    (run_python_code env code (pre ++ bad :: post) folder).2.installsAttempted =
      pre ++ [bad] ∧
    (run_python_code env code (pre ++ bad :: post) folder).2.execInvoked = false := by
  unfold run_python_code
  rw [installLoop_first_fail env.install bad err post hbad pre hpre]
  exact ⟨rfl, rfl, rfl⟩

/-- Witness for C4_install_short_circuit: pandas fails between numpy and
matplotlib. -/
theorem C4_install_short_circuit_witness :
    (run_python_code
        ⟨fun l => if l = "pandas" then some "No matching distribution" else none,
          .ok (), none⟩
        "print(1)" (["numpy"] ++ "pandas" :: ["matplotlib"]) "uploads").1 =
      ⟨0, installFailMessage "pandas" "No matching distribution"⟩ ∧
    (run_python_code
        ⟨fun l => if l = "pandas" then some "No matching distribution" else none,
          .ok (), none⟩
        "print(1)" (["numpy"] ++ "pandas" :: ["matplotlib"]) "uploads").2.installsAttempted =
      ["numpy"] ++ ["pandas"] ∧
    (run_python_code
        ⟨fun l => if l = "pandas" then some "No matching distribution" else none,
          .ok (), none⟩
        "print(1)" (["numpy"] ++ "pandas" :: ["matplotlib"]) "uploads").2.execInvoked =
      false :=
  C4_install_short_circuit _ _ _ _ _ _ _ (by decide) (by decide)

/-! ### Claim C9 (denylist of built-in names). -/

/-- Claim C9, counterexample: the claim asserts that always-built-in
names such as base64 are filtered out and never submitted for
installation; but run_python_code has no denylist, and with a declared
dependency list ["base64"] the name base64 is submitted to pip. -/
theorem C9_counterexample :
    (run_python_code ⟨fun _ => none, .ok (), none⟩
        "import base64" ["base64"] "uploads").2.installsAttempted = ["base64"] := rfl

/-- Claim C9 as amended: no denylist is enforced; every declared
dependency name, built-in or not, is submitted for installation in the
declared order (when the installs succeed, the submitted list is exactly
the declared list). The exclusion of built-ins is only requested of the
model in the prompts, not enforced mechanically. -/
theorem C9_all_installed (env : PyEnv) (code folder : String) (libs : List String)
    (h : ∀ l ∈ libs, env.install l = none) :
    (run_python_code env code libs folder).2.installsAttempted = libs := by
  unfold run_python_code
  rw [installLoop_all_ok env.install libs h]
  cases env.execRes <;> rfl

/-- Witness for C9_all_installed: sqlite3, base64 and csv are all
submitted. -/
theorem C9_all_installed_witness :
    (run_python_code ⟨fun _ => none, .ok (), none⟩
        "import csv" ["sqlite3", "base64", "csv"] "uploads").2.installsAttempted =
      ["sqlite3", "base64", "csv"] :=
  C9_all_installed _ _ _ _ (by decide)

/-! ### Claim C5 (malformed replies in the generation stages). -/

/-- Claim C5, counterexample: a model reply that is well-formed JSON but
lacks every required field (the empty object) is returned as a success by
parse_question_with_llm instead of failing with a malformed-reply error:
no field validation happens at the parse boundary. -/
theorem C5_counterexample :
    (parse_question_with_llm (.ok "\x7b\x7d") [] ⟨[]⟩ (some "q") (some "files")
        "uploads/r1" "r1" none).1 = .ok (Json.jobj []) ∧
    Json.getField (Json.jobj []) "code" = none := ⟨rfl, rfl⟩

/-- Claim C5 as amended: a reply that is not well-formed structured data
makes parse_question_with_llm and answer_with_data fail with the JSON
decode error; but a well-formed reply is returned as parsed, with no
check of the required fields (code, libraries, questions) - missing
fields surface later as KeyError at the orchestrator access sites. -/
theorem C5_reply_parsing (replyText : String)
    (sessions : List (String × ChatSession)) (fs : FS)
    (qt uf : Option String) (folder sid : String) (rm : Option String) :
    (jsonParse replyText = none →
      (parse_question_with_llm (.ok replyText) sessions fs qt uf folder sid rm).1 =
        .error (.jsonDecode jsonDecodeMessage)) ∧
    (∀ j, jsonParse replyText = some j →
      (parse_question_with_llm (.ok replyText) sessions fs qt uf folder sid rm).1 =
        .ok j) ∧
    (∀ md, FS.read fs (metadataPath folder) = some md →
      (jsonParse replyText = none →
        (answer_with_data (.ok replyText) sessions fs qt folder sid rm).1 =
          .error (.jsonDecode jsonDecodeMessage)) ∧
      (∀ j, jsonParse replyText = some j →
        (answer_with_data (.ok replyText) sessions fs qt folder sid rm).1 = .ok j)) := by
  refine ⟨?_, ?_, ?_⟩
  · intro h
    simp [parse_question_with_llm, h]
  · intro j h
    simp [parse_question_with_llm, h]
  · intro md hmd
    constructor
    · intro h
      simp [answer_with_data, hmd, h]
    · intro j h
      simp [answer_with_data, hmd, h]

/-- Witness for C5_reply_parsing: a non-JSON reply raises the decode
error in both stages; a JSON reply with only a code field is returned
without any completeness check. -/
theorem C5_reply_parsing_witness :
    (parse_question_with_llm (.ok "not json") [] ⟨[("u/metadata.txt", "md")]⟩
        (some "q") (some "f") "u" "s" none).1 =
      .error (.jsonDecode jsonDecodeMessage) ∧
    (parse_question_with_llm (.ok "\x7b\"code\": \"c\"\x7d") [] ⟨[("u/metadata.txt", "md")]⟩
        (some "q") (some "f") "u" "s" none).1 =
      .ok (Json.jobj [("code", Json.jstr "c")]) ∧
    (answer_with_data (.ok "not json") [] ⟨[("u/metadata.txt", "md")]⟩
        (some "q") "u" "s" none).1 =
      .error (.jsonDecode jsonDecodeMessage) := by
  refine ⟨?_, ?_, ?_⟩
  · exact (C5_reply_parsing "not json" [] ⟨[("u/metadata.txt", "md")]⟩
      (some "q") (some "f") "u" "s" none).1 rfl
  · exact (C5_reply_parsing "\x7b\"code\": \"c\"\x7d" [] ⟨[("u/metadata.txt", "md")]⟩
      (some "q") (some "f") "u" "s" none).2.1 _ rfl
  · exact ((C5_reply_parsing "not json" [] ⟨[("u/metadata.txt", "md")]⟩
      (some "q") (some "f") "u" "s" none).2.2 "md" rfl).1 rfl

/-! ### Concrete oracle environments used in counterexamples. -/

/-- A well-formed collection-stage reply with all three declared fields. -/
def goodReply : String :=
  "\x7b\"code\": \"c\", \"libraries\": [], \"questions\": [\"q1\"]\x7d"

/-- A well-formed analysis-stage reply with both declared fields. -/
def goodAnswerReply : String := "\x7b\"code\": \"c2\", \"libraries\": []\x7d"

/-- pip always succeeds and exec completes normally. -/
def benignPy : PyEnv := ⟨fun _ => none, .ok (), none⟩

/-- pip always succeeds but exec always raises. -/
def failPy : PyEnv := ⟨fun _ => none, .error "boom", none⟩

/-- Fresh request state: empty filesystem, empty session stores. -/
def st0run : SysState := ⟨⟨[]⟩, [], [], 0, 0, 0, []⟩

/-- Oracle: generation always parses, every execution fails, executed
code has no filesystem effect. -/
def envExecFail : Env :=
  ⟨fun _ => .ok goodReply, fun _ => .ok goodReply, fun _ => failPy, fun _ fs => fs⟩

/-- Oracle: every collection-stage model call faults. -/
def envParseFault : Env :=
  ⟨fun _ => .error "service unavailable", fun _ => .ok goodReply,
   fun _ => benignPy, fun _ fs => fs⟩

/-- Oracle: a run that reaches a successful analysis execution, but the
analysis-stage generated code deletes result.json instead of writing it. -/
def envDeleteResult : Env :=
  ⟨fun _ => .ok goodReply, fun _ => .ok goodAnswerReply, fun _ => benignPy,
   fun i fs => if i = 1 then FS.remove fs (resultPath "uploads/r1") else fs⟩

/-! ### Claim C1 (retry budget bounded at 3 attempts per stage). -/

/-- Claim C1, counterexample: with generation always succeeding and
execution failing on every attempt, the collection stage performs 4
generate-execute attempts (4 model calls and 4 executions: the initial
one plus 3 retry rounds) before escalating to the collection-stage
failure - so a 4th attempt does happen, contradicting the claimed bound
of 3. -/
theorem C1_counterexample :
    (analyze envExecFail 9 "uploads/r1" "r1" (some "q") (some "files") st0run).1 =
      .message scrapFailMessage ∧
    countRunEv (analyze envExecFail 9 "uploads/r1" "r1" (some "q") (some "files")
        st0run).2.events = 4 ∧
    countParseEv (analyze envExecFail 9 "uploads/r1" "r1" (some "q") (some "files")
        st0run).2.events = 4 := ⟨rfl, rfl, rfl⟩

/-! ### Claim C8 (backoff before re-invoking the model). -/

/-- Claim C8, counterexample: with every collection-stage model call
faulting, the retry loop re-invokes the model three times in a row and
the complete event trace of the run is three consecutive model
invocations with no sleep event anywhere - no backoff delay, linear or
otherwise, is performed between attempts. -/
theorem C8_counterexample :
    (analyze envParseFault 9 "uploads/r1" "r1" (some "q") (some "files")
        st0run).2.events = [Ev.genParse, Ev.genParse, Ev.genParse] := rfl

/-! ### Claim C3 (caller-visible outcome of the terminal artifact read). -/

/-- Claim C3, counterexample: a run in which both stages succeed but the
analysis code removes result.json ends with the terminal read raising an
unhandled FileNotFoundError out of the handler - there is no
MissingArtifactError, and a raw fault does escape to the caller. -/
theorem C3_counterexample :
    (analyze envDeleteResult 9 "uploads/r1" "r1" (some "q") (some "files")
        st0run).1 = .raised (.fileNotFound (resultPath "uploads/r1")) := rfl

/-- Claim C3 as amended: at the terminal read of result.json, an absent
file raises an unhandled fault (no MissingArtifactError exists); a
present file that does not parse - including the empty placeholder -
yields one structured malformed-result message carrying the raw content
(absent-or-empty is not distinguished as a missing-artifact category);
and a parseable file is returned as the final parsed artifact. -/
theorem C3_final_read_behavior (fs : FS) (folder : String) :
    (FS.read fs (resultPath folder) = none →
      finalRead fs folder = .raised (.fileNotFound (resultPath folder))) ∧
    (∀ content, FS.read fs (resultPath folder) = some content →
      jsonParse content = none →
      finalRead fs folder =
        .messageRaw ("Error occured while processing result.json: " ++ jsonDecodeMessage)
          content) ∧
    (∀ content j, FS.read fs (resultPath folder) = some content →
      jsonParse content = some j → finalRead fs folder = .jsonContent j) := by
  refine ⟨?_, ?_, ?_⟩
  · intro h
    simp [finalRead, h]
  · intro content h hp
    simp [finalRead, h, hp]
  · intro content j h hp
    simp [finalRead, h, hp]

/-- Witness for C3_final_read_behavior: an absent artifact raises, the
empty placeholder yields the malformed-result message, and a parseable
artifact is returned. -/
theorem C3_final_read_behavior_witness :
    finalRead ⟨[]⟩ "u" = .raised (.fileNotFound (resultPath "u")) ∧
    finalRead ⟨[("u/result.json", "")]⟩ "u" =
      .messageRaw ("Error occured while processing result.json: " ++ jsonDecodeMessage) "" ∧
    finalRead ⟨[("u/result.json", "\x7b\x7d")]⟩ "u" = .jsonContent (Json.jobj []) := by
  refine ⟨?_, ?_, ?_⟩
  · exact (C3_final_read_behavior ⟨[]⟩ "u").1 rfl
  · exact (C3_final_read_behavior ⟨[("u/result.json", "")]⟩ "u").2.1 "" rfl rfl
  · exact (C3_final_read_behavior ⟨[("u/result.json", "\x7b\x7d")]⟩ "u").2.2
      "\x7b\x7d" (Json.jobj []) rfl rfl

/-! ### Filesystem and path lemmas. -/

theorem lookupPS_writeList (l : List (String × String)) (p c q : String) :
    lookupPS (writeList l p c) q = if p = q then some c else lookupPS l q := by
  induction l with
  | nil =>
    by_cases h : p = q <;> simp [writeList, lookupPS, h]
  | cons e rest ih =>
    rcases e with ⟨r, d⟩
    by_cases hrp : r = p
    · subst hrp
      by_cases h : r = q <;> simp [writeList, lookupPS, h]
    · by_cases h : r = q
      · subst h
        have hpq : ¬ p = r := fun hc => hrp hc.symm
        simp [writeList, lookupPS, hrp, hpq]
      · simp [writeList, lookupPS, hrp, h, ih]

theorem FS.read_write (fs : FS) (p c q : String) :
    FS.read (FS.write fs p c) q = if p = q then some c else FS.read fs q := by
  unfold FS.read FS.write
  exact lookupPS_writeList fs.files p c q

theorem FS.read_write_ne (fs : FS) (p c q : String) (h : p ≠ q) :
    FS.read (FS.write fs p c) q = FS.read fs q := by
  rw [FS.read_write]
  simp [h]

theorem FS.read_append_ne (fs : FS) (p c q : String) (h : p ≠ q) :
    FS.read (FS.append fs p c) q = FS.read fs q := by
  unfold FS.append
  exact FS.read_write_ne _ _ _ _ h

theorem read_foldl_append_ne (l : List String) (fs : FS) (p q : String) (h : p ≠ q) :
    FS.read (l.foldl (fun acc e => FS.append acc p e) fs) q = FS.read fs q := by
  induction l generalizing fs with
  | nil => rfl
  | cons x rest ih =>
    simp only [List.foldl_cons]
    rw [ih (FS.append fs p x)]
    exact FS.read_append_ne fs p x q h

theorem append_ne_of_ne (f a b : String) (h : a ≠ b) : f ++ a ≠ f ++ b := by
  intro he
  apply h
  have hd : f.data ++ a.data = f.data ++ b.data := by
    rw [← String.data_append, ← String.data_append, he]
  have h2 : a.data = b.data := List.append_cancel_left hd
  cases a
  cases b
  exact congrArg String.mk h2

theorem metadataPath_ne_resultPath (f : String) : metadataPath f ≠ resultPath f :=
  append_ne_of_ne f "/metadata.txt" "/result.json" (by decide)

theorem execLogPath_ne_resultPath (f : String) : execLogPath f ≠ resultPath f :=
  append_ne_of_ne f "/execution_result.txt" "/result.json" (by decide)

theorem llmPath_ne_resultPath (f : String) : llmPath f ≠ resultPath f :=
  append_ne_of_ne f "/llm_response.txt" "/result.json" (by decide)

theorem metadataPath_ne_csvPath (f : String) : metadataPath f ≠ csvPath f :=
  append_ne_of_ne f "/metadata.txt" "/data.csv" (by decide)

theorem execLogPath_ne_csvPath (f : String) : execLogPath f ≠ csvPath f :=
  append_ne_of_ne f "/execution_result.txt" "/data.csv" (by decide)

theorem llmPath_ne_csvPath (f : String) : llmPath f ≠ csvPath f :=
  append_ne_of_ne f "/llm_response.txt" "/data.csv" (by decide)

/-! ### The result.json existence invariant (claim C10) and
sleep-freeness machinery (claim C8). -/

/-- result.json exists in the filesystem of the run. -/
def resOk (folder : String) (fs : FS) : Prop :=
  (FS.read fs (resultPath folder)).isSome

/-- The executed generated code never deletes an existing result.json. -/
def preservesRes (env : Env) (folder : String) : Prop :=
  ∀ i fs, resOk folder fs → resOk folder (env.execFx i fs)

/-- The second state extends the first state's event list with
sleep-free events only. -/
def evExt (st st1 : SysState) : Prop :=
  ∃ l, st1.events = st.events ++ l ∧ sleepFree l

theorem evExt_refl (st : SysState) : evExt st st := ⟨[], by simp, by intro e he; cases he⟩

theorem evExt_trans {a b c : SysState} (h1 : evExt a b) (h2 : evExt b c) : evExt a c := by
  obtain ⟨l1, he1, hs1⟩ := h1
  obtain ⟨l2, he2, hs2⟩ := h2
  refine ⟨l1 ++ l2, by rw [he2, he1, List.append_assoc], ?_⟩
  intro e he
  rcases List.mem_append.mp he with h | h
  · exact hs1 e h
  · exact hs2 e h

theorem sleepFree_of_evExt {st st1 : SysState} (h : evExt st st1)
    (h0 : sleepFree st.events) : sleepFree st1.events := by
  obtain ⟨l, he, hs⟩ := h
  rw [he]
  intro e hmem
  rcases List.mem_append.mp hmem with hm | hm
  · exact h0 e hm
  · exact hs e hm

theorem sleepFree_single_parse : sleepFree [Ev.genParse] := by
  intro e he
  simp only [List.mem_singleton] at he
  subst he
  rfl

theorem sleepFree_single_answer : sleepFree [Ev.genAnswer] := by
  intro e he
  simp only [List.mem_singleton] at he
  subst he
  rfl

theorem sleepFree_single_run : sleepFree [Ev.runCall] := by
  intro e he
  simp only [List.mem_singleton] at he
  subst he
  rfl

/-! ### Component lemmas for the three orchestrator call wrappers. -/

theorem callParse_events (env : Env) (st : SysState) (qt uf : Option String)
    (folder sid : String) (rm : Option String) :
    (callParse env st qt uf folder sid rm).2.events = st.events ++ [Ev.genParse] := rfl

theorem callParse_evExt (env : Env) (st : SysState) (qt uf : Option String)
    (folder sid : String) (rm : Option String) :
    evExt st (callParse env st qt uf folder sid rm).2 :=
  ⟨[Ev.genParse], rfl, sleepFree_single_parse⟩

theorem callParse_fs (env : Env) (st : SysState) (qt uf : Option String)
    (folder sid : String) (rm : Option String) :
    (callParse env st qt uf folder sid rm).2.fs =
      if (FS.read st.fs (metadataPath folder)).isSome then st.fs
      else FS.write st.fs (metadataPath folder) "" := by
  unfold callParse parse_question_with_llm
  cases env.sendParse st.nParse with
  | error m => rfl
  | ok text =>
    cases hp : jsonParse text with
    | none => simp [hp]
    | some j => simp [hp]

theorem callParse_resOk (env : Env) (st : SysState) (qt uf : Option String)
    (folder sid : String) (rm : Option String) (h : resOk folder st.fs) :
    resOk folder (callParse env st qt uf folder sid rm).2.fs := by
  unfold resOk
  rw [callParse_fs]
  split
  · exact h
  · rw [FS.read_write_ne _ _ _ _ (metadataPath_ne_resultPath folder)]
    exact h

theorem callParse_err_shape (env : Env) (st : SysState) (qt uf : Option String)
    (folder sid : String) (rm : Option String) (e : PyErr)
    (h : (callParse env st qt uf folder sid rm).1 = .error e) :
    (∃ m, e = .sdkError m) ∨ e = .jsonDecode jsonDecodeMessage := by
  cases hr : env.sendParse st.nParse with
  | error m =>
    simp [callParse, parse_question_with_llm, hr] at h
    exact Or.inl ⟨m, h.symm⟩
  | ok text =>
    cases hp : jsonParse text with
    | none =>
      simp [callParse, parse_question_with_llm, hr, hp] at h
      exact Or.inr h.symm
    | some j =>
      simp [callParse, parse_question_with_llm, hr, hp] at h

theorem callAnswer_missing (env : Env) (st : SysState) (qt : Option String)
    (folder sid : String) (rm : Option String)
    (hm : FS.read st.fs (metadataPath folder) = none) :
    callAnswer env st qt folder sid rm = (.error (.fileNotFound (metadataPath folder)), st) := by
  unfold callAnswer
  rw [hm]

theorem callAnswer_present_fs (env : Env) (st : SysState) (qt : Option String)
    (folder sid : String) (rm : Option String) (md : String)
    (hm : FS.read st.fs (metadataPath folder) = some md) :
    (callAnswer env st qt folder sid rm).2.fs =
      (if (FS.read st.fs (resultPath folder)).isSome then st.fs
       else FS.write st.fs (resultPath folder) "") ∧
    (callAnswer env st qt folder sid rm).2.events = st.events ++ [Ev.genAnswer] := by
  cases hr : env.sendAnswer st.nAnswer with
  | error m => simp [callAnswer, answer_with_data, hm, hr]
  | ok text =>
    cases hp : jsonParse text with
    | none => simp [callAnswer, answer_with_data, hm, hr, hp]
    | some j => simp [callAnswer, answer_with_data, hm, hr, hp]

theorem callAnswer_resOk_of_present (env : Env) (st : SysState) (qt : Option String)
    (folder sid : String) (rm : Option String) (md : String)
    (hm : FS.read st.fs (metadataPath folder) = some md) :
    resOk folder (callAnswer env st qt folder sid rm).2.fs := by
  unfold resOk
  rw [(callAnswer_present_fs env st qt folder sid rm md hm).1]
  split
  · assumption
  · rw [FS.read_write]
    simp

theorem callAnswer_resOk_preserve (env : Env) (st : SysState) (qt : Option String)
    (folder sid : String) (rm : Option String) (h : resOk folder st.fs) :
    resOk folder (callAnswer env st qt folder sid rm).2.fs := by
  cases hm : FS.read st.fs (metadataPath folder) with
  | none => rw [callAnswer_missing env st qt folder sid rm hm]; exact h
  | some md => exact callAnswer_resOk_of_present env st qt folder sid rm md hm

theorem callAnswer_resOk_of_ok (env : Env) (st : SysState) (qt : Option String)
    (folder sid : String) (rm : Option String) (j : Json)
    (h : (callAnswer env st qt folder sid rm).1 = .ok j) :
    resOk folder (callAnswer env st qt folder sid rm).2.fs := by
  cases hm : FS.read st.fs (metadataPath folder) with
  | none =>
    rw [callAnswer_missing env st qt folder sid rm hm] at h
    simp at h
  | some md => exact callAnswer_resOk_of_present env st qt folder sid rm md hm

theorem callAnswer_evExt (env : Env) (st : SysState) (qt : Option String)
    (folder sid : String) (rm : Option String) :
    evExt st (callAnswer env st qt folder sid rm).2 := by
  cases hm : FS.read st.fs (metadataPath folder) with
  | none =>
    rw [callAnswer_missing env st qt folder sid rm hm]
    exact evExt_refl st
  | some md =>
    exact ⟨[Ev.genAnswer], (callAnswer_present_fs env st qt folder sid rm md hm).2,
      sleepFree_single_answer⟩

theorem callAnswer_err_shape (env : Env) (st : SysState) (qt : Option String)
    (folder sid : String) (rm : Option String) (e : PyErr)
    (h : (callAnswer env st qt folder sid rm).1 = .error e) :
    e = .fileNotFound (metadataPath folder) ∨ (∃ m, e = .sdkError m) ∨
      e = .jsonDecode jsonDecodeMessage := by
  cases hm : FS.read st.fs (metadataPath folder) with
  | none =>
    rw [callAnswer_missing env st qt folder sid rm hm] at h
    simp at h
    exact Or.inl h.symm
  | some md =>
    cases hr : env.sendAnswer st.nAnswer with
    | error m =>
      simp [callAnswer, answer_with_data, hm, hr] at h
      exact Or.inr (Or.inl ⟨m, h.symm⟩)
    | ok text =>
      cases hp : jsonParse text with
      | none =>
        simp [callAnswer, answer_with_data, hm, hr, hp] at h
        exact Or.inr (Or.inr h.symm)
      | some j =>
        simp [callAnswer, answer_with_data, hm, hr, hp] at h

theorem callRun_events (env : Env) (st : SysState) (code : String)
    (libs : List String) (folder : String) :
    (callRun env st code libs folder).2.events = st.events ++ [Ev.runCall] := rfl

theorem callRun_evExt (env : Env) (st : SysState) (code : String)
    (libs : List String) (folder : String) :
    evExt st (callRun env st code libs folder).2 :=
  ⟨[Ev.runCall], rfl, sleepFree_single_run⟩

theorem callRun_resOk (env : Env) (st : SysState) (code : String)
    (libs : List String) (folder : String)
    (hpres : preservesRes env folder) (h : resOk folder st.fs) :
    resOk folder (callRun env st code libs folder).2.fs := by
  unfold callRun resOk
  simp only
  rw [read_foldl_append_ne _ _ _ _ (execLogPath_ne_resultPath folder)]
  split
  · apply hpres
    unfold resOk
    rw [read_foldl_append_ne _ _ _ _ (execLogPath_ne_resultPath folder)]
    exact h
  · rw [read_foldl_append_ne _ _ _ _ (execLogPath_ne_resultPath folder)]
    exact h

/-! ### The combined transition property: sleep-free event extension plus
preservation of the result.json invariant. -/

/-- One pipeline step from st to st1: events grow by sleep-free events
only, and (when the executed code never deletes result.json) an existing
result.json keeps existing. -/
def stepOk (env : Env) (folder : String) (st st1 : SysState) : Prop :=
  evExt st st1 ∧
  (preservesRes env folder → resOk folder st.fs → resOk folder st1.fs)

theorem stepOk_refl (env : Env) (folder : String) (st : SysState) :
    stepOk env folder st st := ⟨evExt_refl st, fun _ h => h⟩

theorem stepOk_trans {env : Env} {folder : String} {a b c : SysState}
    (h1 : stepOk env folder a b) (h2 : stepOk env folder b c) :
    stepOk env folder a c :=
  ⟨evExt_trans h1.1 h2.1, fun hp hr => h2.2 hp (h1.2 hp hr)⟩

theorem stepOk_callParse (env : Env) (st : SysState) (qt uf : Option String)
    (folder sid : String) (rm : Option String) :
    stepOk env folder st (callParse env st qt uf folder sid rm).2 :=
  ⟨callParse_evExt env st qt uf folder sid rm,
   fun _ h => callParse_resOk env st qt uf folder sid rm h⟩

theorem stepOk_callAnswer (env : Env) (st : SysState) (qt : Option String)
    (folder sid : String) (rm : Option String) :
    stepOk env folder st (callAnswer env st qt folder sid rm).2 :=
  ⟨callAnswer_evExt env st qt folder sid rm,
   fun _ h => callAnswer_resOk_preserve env st qt folder sid rm h⟩

theorem stepOk_callRun (env : Env) (st : SysState) (code : String)
    (libs : List String) (folder : String) :
    stepOk env folder st (callRun env st code libs folder).2 :=
  ⟨callRun_evExt env st code libs folder,
   fun hp h => callRun_resOk env st code libs folder hp h⟩

/-- Appending to llm_response.txt neither adds events nor touches
result.json. -/
theorem stepOk_llmAppend (env : Env) (folder : String) (st : SysState) (x : String) :
    stepOk env folder st { st with fs := FS.append st.fs (llmPath folder) x } := by
  refine ⟨evExt_refl st, fun _ h => ?_⟩
  unfold resOk at h ⊢
  show (FS.read (FS.append st.fs (llmPath folder) x) (resultPath folder)).isSome
  rw [FS.read_append_ne _ _ _ _ (llmPath_ne_resultPath folder)]
  exact h

theorem step3Loop_stepOk (env : Env) (folder sid : String) (qt uf : Option String) :
    ∀ (fuel attempt : Nat) (errOcc : Bool) (rm : String) (resp : Option Json)
      (st : SysState),
      stepOk env folder st (step3Loop env folder sid qt uf fuel attempt errOcc rm resp st).2 := by
  intro fuel
  induction fuel with
  | zero =>
    intro attempt errOcc rm resp st
    exact stepOk_refl env folder st
  | succ n ih =>
    intro attempt errOcc rm resp st
    cases errOcc with
    | false =>
      simp only [step3Loop, Bool.false_eq_true, if_false]
      rcases hc : callParse env st qt uf folder sid none with ⟨res, st1⟩
      have h1 : stepOk env folder st st1 := by
        have h := stepOk_callParse env st qt uf folder sid none
        rw [hc] at h
        exact h
      cases res with
      | ok j =>
        simp only []
        by_cases hobj : j.isObj = true
        · rw [if_pos hobj]
          exact stepOk_trans h1 (stepOk_llmAppend env folder st1 _)
        · rw [if_neg hobj]
          exact stepOk_trans h1 (ih (attempt + 1) false rm (some j) st1)
      | error e =>
        simp only []
        exact stepOk_trans h1 (ih (attempt + 1) true _ resp st1)
    | true =>
      simp only [step3Loop, if_true]
      rcases hc : callParse env st none none folder sid (some rm) with ⟨res, st1⟩
      have h1 : stepOk env folder st st1 := by
        have h := stepOk_callParse env st none none folder sid (some rm)
        rw [hc] at h
        exact h
      cases res with
      | ok j =>
        simp only []
        by_cases hobj : j.isObj = true
        · rw [if_pos hobj]
          exact stepOk_trans h1 (stepOk_llmAppend env folder st1 _)
        · rw [if_neg hobj]
          exact stepOk_trans h1 (ih (attempt + 1) true rm (some j) st1)
      | error e =>
        simp only []
        exact stepOk_trans h1 (ih (attempt + 1) true _ resp st1)

theorem csvLoop_stepOk (env : Env) (folder sid : String) :
    ∀ (fuel csvRetry : Nat) (resp : Json) (er : RunOutcome) (st : SysState),
      stepOk env folder st (csvLoop env folder sid fuel csvRetry resp er st).2 := by
  intro fuel
  induction fuel with
  | zero =>
    intro csvRetry resp er st
    exact stepOk_refl env folder st
  | succ n ih =>
    intro csvRetry resp er st
    by_cases hcsv : FS.read st.fs (csvPath folder) = some ""
    · simp only [csvLoop, if_pos hcsv]
      rcases hc : callParse env st none none folder sid
          (some "There is no content present in scraped data files.") with ⟨res, st1⟩
      have h1 : stepOk env folder st st1 := by
        have h := stepOk_callParse env st none none folder sid
          (some "There is no content present in scraped data files.")
        rw [hc] at h
        exact h
      cases res with
      | error e => exact h1
      | ok r =>
        simp only []
        cases jGetStr (r.setField "comment" _) "code" with
        | error e => exact stepOk_trans h1 (stepOk_llmAppend env folder st1 _)
        | ok code =>
          simp only []
          cases jGetLibs (r.setField "comment" _) "libraries" with
          | error e => exact stepOk_trans h1 (stepOk_llmAppend env folder st1 _)
          | ok libs =>
            simp only []
            refine stepOk_trans h1 (stepOk_trans (stepOk_llmAppend env folder st1 _)
              (stepOk_trans (stepOk_callRun env _ code libs folder) (ih _ _ _ _)))
    · simp only [csvLoop, if_neg hcsv]
      exact stepOk_refl env folder st

theorem step4Loop_stepOk (env : Env) (folder sid : String) :
    ∀ (fuel count : Nat) (resp : Json) (er : RunOutcome) (st : SysState),
      stepOk env folder st (step4Loop env folder sid fuel count resp er st).2 := by
  intro fuel
  induction fuel with
  | zero =>
    intro count resp er st
    exact stepOk_refl env folder st
  | succ n ih =>
    intro count resp er st
    by_cases her : er.code = 0
    · simp only [step4Loop, if_pos her]
      rcases hc : callParse env st none none folder sid
          (some (last_n_words er.output 100)) with ⟨res, st1⟩
      have h1 : stepOk env folder st st1 := by
        have h := stepOk_callParse env st none none folder sid
          (some (last_n_words er.output 100))
        rw [hc] at h
        exact h
      cases res with
      | ok r =>
        simp only []
        have h2 : stepOk env folder st
            { st1 with fs := FS.append st1.fs (llmPath folder) (jsonDump (r.setField "comment"
                (Json.jstr ("Step-4: Error occured while scrapping. Tries count = %d, " ++ toString count)))) } :=
          stepOk_trans h1 (stepOk_llmAppend env folder st1 _)
        cases jGetStr (r.setField "comment" _) "code" with
        | error e => exact h2
        | ok code =>
          simp only []
          cases jGetLibs (r.setField "comment" _) "libraries" with
          | error e => exact h2
          | ok libs =>
            simp only []
            rcases hr : callRun env ({ st1 with fs := FS.append st1.fs (llmPath folder) (jsonDump (r.setField "comment" (Json.jstr ("Step-4: Error occured while scrapping. Tries count = %d, " ++ toString count)))) }) code libs folder with ⟨er1, st2⟩
            have h3 : stepOk env folder st st2 := by
              have h := stepOk_callRun env ({ st1 with fs := FS.append st1.fs (llmPath folder) (jsonDump (r.setField "comment" (Json.jstr ("Step-4: Error occured while scrapping. Tries count = %d, " ++ toString count)))) }) code libs folder
              rw [hr] at h
              exact stepOk_trans h2 h
            rcases hcl : csvLoop env folder sid 3 0 (r.setField "comment" (Json.jstr ("Step-4: Error occured while scrapping. Tries count = %d, " ++ toString count))) er1 st2 with ⟨cres, st3⟩
            have h4 : stepOk env folder st st3 := by
              have h := csvLoop_stepOk env folder sid 3 0 (r.setField "comment" (Json.jstr ("Step-4: Error occured while scrapping. Tries count = %d, " ++ toString count))) er1 st2
              rw [hcl] at h
              exact stepOk_trans h3 h
            cases cres with
            | error e => exact h4
            | ok pr =>
              rcases pr with ⟨resp2, er2⟩
              simp only []
              exact stepOk_trans h4 (ih (count + 1) resp2 er2 st3)
      | error e =>
        simp only []
        cases jGetStr resp "code" with
        | error e2 => exact h1
        | ok code =>
          simp only []
          cases jGetLibs resp "libraries" with
          | error e2 => exact h1
          | ok libs =>
            simp only []
            rcases hr : callRun env st1 code libs folder with ⟨er1, st2⟩
            have h3 : stepOk env folder st st2 := by
              have h := stepOk_callRun env st1 code libs folder
              rw [hr] at h
              exact stepOk_trans h1 h
            rcases hcl : csvLoop env folder sid 3 0 resp er1 st2 with ⟨cres, st3⟩
            have h4 : stepOk env folder st st3 := by
              have h := csvLoop_stepOk env folder sid 3 0 resp er1 st2
              rw [hcl] at h
              exact stepOk_trans h3 h
            cases cres with
            | error e2 => exact h4
            | ok pr =>
              rcases pr with ⟨resp2, er2⟩
              simp only []
              exact stepOk_trans h4 (ih (count + 1) resp2 er2 st3)
    · simp only [step4Loop, if_neg her]
      exact stepOk_refl env folder st

theorem step5Loop_stepOk (env : Env) (folder sid : String) (questions : Json) :
    ∀ (fuel attempt : Nat) (errOcc : Bool) (rm : String) (g : Option Json)
      (st : SysState),
      stepOk env folder st (step5Loop env folder sid questions fuel attempt errOcc rm g st).2 := by
  intro fuel
  induction fuel with
  | zero =>
    intro attempt errOcc rm g st
    exact stepOk_refl env folder st
  | succ n ih =>
    intro attempt errOcc rm g st
    cases errOcc with
    | true =>
      simp only [step5Loop, if_true]
      rcases hc : callAnswer env st none folder sid (some rm) with ⟨res, st1⟩
      have h1 : stepOk env folder st st1 := by
        have h := stepOk_callAnswer env st none folder sid (some rm)
        rw [hc] at h
        exact h
      cases res with
      | ok ga =>
        simp only []
        exact stepOk_trans h1 (ih (attempt + 1) true rm (some ga) st1)
      | error e =>
        simp only []
        exact stepOk_trans h1 (ih (attempt + 1) true _ g st1)
    | false =>
      simp only [step5Loop, Bool.false_eq_true, if_false]
      rcases hc : callAnswer env st (some (jsonDump questions)) folder sid none with ⟨res, st1⟩
      have h1 : stepOk env folder st st1 := by
        have h := stepOk_callAnswer env st (some (jsonDump questions)) folder sid none
        rw [hc] at h
        exact h
      cases res with
      | ok ga =>
        simp only []
        cases jGetStr ga "code" with
        | ok c =>
          simp only []
          by_cases hobj : ga.isObj = true
          · rw [if_pos hobj]
            exact h1
          · rw [if_neg hobj]
            exact stepOk_trans h1 (ih (attempt + 1) false rm (some ga) st1)
        | error e =>
          simp only []
          exact stepOk_trans h1 (ih (attempt + 1) true _ (some ga) st1)
      | error e =>
        simp only []
        exact stepOk_trans h1 (ih (attempt + 1) true _ g st1)

theorem step6Try_stepOk (env : Env) (folder sid : String) (g : Json) (st : SysState) :
    stepOk env folder st (step6Try env folder sid g st).2 := by
  unfold step6Try
  cases jGetStr g "code" with
  | ok code =>
    cases jGetLibs g "libraries" with
    | ok libs =>
      simp only []
      exact stepOk_callRun env st code libs folder
    | error e =>
      simp only []
      rcases hc : callAnswer env st none folder sid (some "Please follow the json structure") with ⟨res, st1⟩
      have h1 : stepOk env folder st st1 := by
        have h := stepOk_callAnswer env st none folder sid (some "Please follow the json structure")
        rw [hc] at h
        exact h
      cases res with
      | error e2 => exact h1
      | ok g2 =>
        simp only []
        cases jGetStr g2 "code" with
        | error e2 => exact h1
        | ok code2 =>
          simp only []
          cases jGetLibs g2 "libraries" with
          | error e2 => exact h1
          | ok libs2 =>
            simp only []
            exact stepOk_trans h1 (stepOk_callRun env st1 code2 libs2 folder)
  | error e =>
    simp only []
    rcases hc : callAnswer env st none folder sid (some "Please follow the json structure") with ⟨res, st1⟩
    have h1 : stepOk env folder st st1 := by
      have h := stepOk_callAnswer env st none folder sid (some "Please follow the json structure")
      rw [hc] at h
      exact h
    cases res with
    | error e2 => exact h1
    | ok g2 =>
      simp only []
      cases jGetStr g2 "code" with
      | error e2 => exact h1
      | ok code2 =>
        simp only []
        cases jGetLibs g2 "libraries" with
        | error e2 => exact h1
        | ok libs2 =>
          simp only []
          exact stepOk_trans h1 (stepOk_callRun env st1 code2 libs2 folder)

theorem step6Loop_stepOk (env : Env) (folder sid : String) :
    ∀ (fuel count : Nat) (jsonStr : Bool) (g : Json) (fr : RunOutcome) (st : SysState),
      stepOk env folder st (step6Loop env folder sid fuel count jsonStr g fr st).2 := by
  intro fuel
  induction fuel with
  | zero =>
    intro count jsonStr g fr st
    simp only [step6Loop]
    split
    · exact stepOk_refl env folder st
    · exact stepOk_refl env folder st
  | succ n ih =>
    intro count jsonStr g fr st
    by_cases hcond : (fr.code = 0 && count < 3) = true
    · simp only [step6Loop, if_pos hcond]
      rcases hc : callAnswer env st none folder sid
          (some (if jsonStr then last_n_words fr.output 100
                 else "follow the structure \x7b\x27code\x27: \x27\x27, \x27libraries\x27: \x27\x27\x7d")) with ⟨res, st1⟩
      have h1 : stepOk env folder st st1 := by
        have h := stepOk_callAnswer env st none folder sid
          (some (if jsonStr then last_n_words fr.output 100
                 else "follow the structure \x7b\x27code\x27: \x27\x27, \x27libraries\x27: \x27\x27\x7d"))
        rw [hc] at h
        exact h
      cases res with
      | ok ga =>
        simp only []
        cases jGetStr ga "code" with
        | ok c =>
          simp only []
          cases jGetStr ga "code" with
          | error e => exact stepOk_trans h1 (ih count jsonStr ga fr st1)
          | ok code =>
            simp only []
            cases jGetLibs ga "libraries" with
            | error e => exact stepOk_trans h1 (ih count jsonStr ga fr st1)
            | ok libs =>
              simp only []
              rcases hr : callRun env st1 code libs folder with ⟨fr1, st2⟩
              have h3 : stepOk env folder st st2 := by
                have h := stepOk_callRun env st1 code libs folder
                rw [hr] at h
                exact stepOk_trans h1 h
              exact stepOk_trans h3 (ih (count + 1) true ga fr1 st2)
        | error e =>
          simp only []
          cases jGetStr ga "code" with
          | error e2 => exact stepOk_trans h1 (ih count false ga fr st1)
          | ok code =>
            simp only []
            cases jGetLibs ga "libraries" with
            | error e2 => exact stepOk_trans h1 (ih count false ga fr st1)
            | ok libs =>
              simp only []
              rcases hr : callRun env st1 code libs folder with ⟨fr1, st2⟩
              have h3 : stepOk env folder st st2 := by
                have h := stepOk_callRun env st1 code libs folder
                rw [hr] at h
                exact stepOk_trans h1 h
              exact stepOk_trans h3 (ih (count + 1) true ga fr1 st2)
      | error e =>
        simp only []
        cases jGetStr g "code" with
        | error e2 => exact stepOk_trans h1 (ih count false g fr st1)
        | ok code =>
          simp only []
          cases jGetLibs g "libraries" with
          | error e2 => exact stepOk_trans h1 (ih count false g fr st1)
          | ok libs =>
            simp only []
            rcases hr : callRun env st1 code libs folder with ⟨fr1, st2⟩
            have h3 : stepOk env folder st st2 := by
              have h := stepOk_callRun env st1 code libs folder
              rw [hr] at h
              exact stepOk_trans h1 h
            exact stepOk_trans h3 (ih (count + 1) true g fr1 st2)
    · simp only [step6Loop, if_neg hcond]
      exact stepOk_refl env folder st

theorem lastTry_stepOk (env : Env) (folder : String) (qt uf : Option String)
    (st : SysState) :
    stepOk env folder st (lastTry env folder qt uf st).2 := by
  unfold lastTry
  rcases hc : callParse env st qt uf folder "default_parse" none with ⟨res, st1⟩
  have h1 : stepOk env folder st st1 := by
    have h := stepOk_callParse env st qt uf folder "default_parse" none
    rw [hc] at h
    exact h
  cases res with
  | error e => exact h1
  | ok r =>
    simp only []
    cases jGetStr r "code" with
    | error e => exact h1
    | ok code =>
      simp only []
      cases jGetLibs r "libraries" with
      | error e => exact h1
      | ok libs =>
        simp only []
        rcases hr : callRun env st1 code libs folder with ⟨er, st2⟩
        have h2 : stepOk env folder st st2 := by
          have h := stepOk_callRun env st1 code libs folder
          rw [hr] at h
          exact stepOk_trans h1 h
        cases jGetAny r "questions" with
        | error e => exact h2
        | ok q =>
          simp only []
          rcases ha : callAnswer env st2 (some (jsonDump q)) folder "default_answer" none with ⟨ares, st3⟩
          have h3 : stepOk env folder st st3 := by
            have h := stepOk_callAnswer env st2 (some (jsonDump q)) folder "default_answer" none
            rw [ha] at h
            exact stepOk_trans h2 h
          cases ares with
          | error e => exact h3
          | ok g =>
            simp only []
            cases jGetStr g "code" with
            | error e => exact h3
            | ok code2 =>
              simp only []
              cases jGetLibs g "libraries" with
              | error e => exact h3
              | ok libs2 =>
                simp only []
                rcases hr2 : callRun env st3 code2 libs2 folder with ⟨er2, st4⟩
                have h4 : stepOk env folder st st4 := by
                  have h := stepOk_callRun env st3 code2 libs2 folder
                  rw [hr2] at h
                  exact stepOk_trans h3 h
                cases FS.read st4.fs (resultPath folder) with
                | none => exact h4
                | some content =>
                  simp only []
                  cases jsonParse content with
                  | none => exact h4
                  | some data => exact h4

/-! ### Shapes of the exceptions each stage can raise. -/

/-- The exception is not a FileNotFoundError for any path. -/
def noFNF (e : PyErr) : Prop := ∀ p, e ≠ .fileNotFound p

theorem jGetStr_err (j : Json) (k : String) (e : PyErr)
    (h : jGetStr j k = .error e) : e = .keyError k := by
  unfold jGetStr at h
  split at h
  · cases h
  · cases h
    rfl

theorem jGetLibs_err (j : Json) (k : String) (e : PyErr)
    (h : jGetLibs j k = .error e) : e = .keyError k := by
  unfold jGetLibs at h
  split at h
  · cases h
  · cases h
    rfl

theorem jGetAny_err (j : Json) (k : String) (e : PyErr)
    (h : jGetAny j k = .error e) : e = .keyError k := by
  unfold jGetAny at h
  split at h
  · cases h
  · cases h
    rfl

theorem keyError_noFNF (k : String) : noFNF (.keyError k) :=
  fun _ hp => PyErr.noConfusion hp

theorem callParse_noFNF (env : Env) (st : SysState) (qt uf : Option String)
    (folder sid : String) (rm : Option String) (e : PyErr)
    (h : (callParse env st qt uf folder sid rm).1 = .error e) : noFNF e := by
  rcases callParse_err_shape env st qt uf folder sid rm e h with ⟨m, rfl⟩ | rfl
  · exact fun _ hp => PyErr.noConfusion hp
  · exact fun _ hp => PyErr.noConfusion hp

theorem csvLoop_err_noFNF (env : Env) (folder sid : String) :
    ∀ (fuel csvRetry : Nat) (resp : Json) (er : RunOutcome) (st : SysState) (e : PyErr),
      (csvLoop env folder sid fuel csvRetry resp er st).1 = .error e → noFNF e := by
  intro fuel
  induction fuel with
  | zero =>
    intro csvRetry resp er st e h
    cases h
  | succ n ih =>
    intro csvRetry resp er st e h
    by_cases hcsv : FS.read st.fs (csvPath folder) = some ""
    · rw [csvLoop, if_pos hcsv] at h
      rcases hc : callParse env st none none folder sid
          (some "There is no content present in scraped data files.") with ⟨res, st1⟩
      rw [hc] at h
      cases res with
      | error e0 =>
        injection h with h2
        subst h2
        exact callParse_noFNF env st none none folder sid
          (some "There is no content present in scraped data files.") e0 (by rw [hc])
      | ok r =>
        simp only [] at h
        cases hcode : jGetStr (r.setField "comment" (Json.jstr ("data.csv is present but empty. Retrying code generation and  execution. Attempt %d, " ++ toString (csvRetry + 1)))) "code" with
        | error e0 =>
          rw [hcode] at h
          cases h
          rw [jGetStr_err _ _ _ hcode]
          exact keyError_noFNF _
        | ok code =>
          rw [hcode] at h
          simp only [] at h
          cases hlibs : jGetLibs (r.setField "comment" (Json.jstr ("data.csv is present but empty. Retrying code generation and  execution. Attempt %d, " ++ toString (csvRetry + 1)))) "libraries" with
          | error e0 =>
            rw [hlibs] at h
            cases h
            rw [jGetLibs_err _ _ _ hlibs]
            exact keyError_noFNF _
          | ok libs =>
            rw [hlibs] at h
            simp only [] at h
            exact ih _ _ _ _ _ h
    · rw [csvLoop, if_neg hcsv] at h
      cases h

theorem step4Loop_err_noFNF (env : Env) (folder sid : String) :
    ∀ (fuel count : Nat) (resp : Json) (er : RunOutcome) (st : SysState) (e : PyErr),
      (step4Loop env folder sid fuel count resp er st).1 = .error e → noFNF e := by
  intro fuel
  induction fuel with
  | zero =>
    intro count resp er st e h
    cases h
  | succ n ih =>
    intro count resp er st e h
    by_cases her : er.code = 0
    · rw [step4Loop, if_pos her] at h
      simp only [] at h
      rcases hc : callParse env st none none folder sid
          (some (last_n_words er.output 100)) with ⟨res, st1⟩
      rw [hc] at h
      cases res with
      | ok r =>
        simp only [] at h
        cases hcode : jGetStr (r.setField "comment" (Json.jstr ("Step-4: Error occured while scrapping. Tries count = %d, " ++ toString count))) "code" with
        | error e0 =>
          rw [hcode] at h
          cases h
          rw [jGetStr_err _ _ _ hcode]
          exact keyError_noFNF _
        | ok code =>
          rw [hcode] at h
          simp only [] at h
          cases hlibs : jGetLibs (r.setField "comment" (Json.jstr ("Step-4: Error occured while scrapping. Tries count = %d, " ++ toString count))) "libraries" with
          | error e0 =>
            rw [hlibs] at h
            cases h
            rw [jGetLibs_err _ _ _ hlibs]
            exact keyError_noFNF _
          | ok libs =>
            rw [hlibs] at h
            simp only [] at h
            rcases hcl : csvLoop env folder sid 3 0 (r.setField "comment" (Json.jstr ("Step-4: Error occured while scrapping. Tries count = %d, " ++ toString count))) (callRun env ({ st1 with fs := FS.append st1.fs (llmPath folder) (jsonDump (r.setField "comment" (Json.jstr ("Step-4: Error occured while scrapping. Tries count = %d, " ++ toString count)))) }) code libs folder).1 (callRun env ({ st1 with fs := FS.append st1.fs (llmPath folder) (jsonDump (r.setField "comment" (Json.jstr ("Step-4: Error occured while scrapping. Tries count = %d, " ++ toString count)))) }) code libs folder).2 with ⟨cres, st3⟩
            rw [hcl] at h
            cases cres with
            | error e0 =>
              cases h
              exact csvLoop_err_noFNF env folder sid 3 0 _ _ _ e (by rw [hcl])
            | ok pr =>
              rcases pr with ⟨resp2, er2⟩
              simp only [] at h
              exact ih _ _ _ _ _ h
      | error e0 =>
        simp only [] at h
        cases hcode : jGetStr resp "code" with
        | error e1 =>
          rw [hcode] at h
          cases h
          rw [jGetStr_err _ _ _ hcode]
          exact keyError_noFNF _
        | ok code =>
          rw [hcode] at h
          simp only [] at h
          cases hlibs : jGetLibs resp "libraries" with
          | error e1 =>
            rw [hlibs] at h
            cases h
            rw [jGetLibs_err _ _ _ hlibs]
            exact keyError_noFNF _
          | ok libs =>
            rw [hlibs] at h
            simp only [] at h
            rcases hcl : csvLoop env folder sid 3 0 resp (callRun env st1 code libs folder).1 (callRun env st1 code libs folder).2 with ⟨cres, st3⟩
            rw [hcl] at h
            cases cres with
            | error e1 =>
              cases h
              exact csvLoop_err_noFNF env folder sid 3 0 _ _ _ e (by rw [hcl])
            | ok pr =>
              rcases pr with ⟨resp2, er2⟩
              simp only [] at h
              exact ih _ _ _ _ _ h
    · rw [step4Loop, if_neg her] at h
      cases h

theorem step6Try_err (env : Env) (folder sid : String) (g : Json) (st : SysState)
    (e : PyErr) (h : (step6Try env folder sid g st).1 = .error e) :
    e ≠ .fileNotFound (resultPath folder) := by
  have hshape : e = .fileNotFound (metadataPath folder) ∨ (∃ m, e = .sdkError m) ∨
      e = .jsonDecode jsonDecodeMessage ∨ ∃ k, e = .keyError k := by
    unfold step6Try at h
    cases hcode : jGetStr g "code" with
    | ok code =>
      rw [hcode] at h
      cases hlibs : jGetLibs g "libraries" with
      | ok libs =>
        rw [hlibs] at h
        simp only [] at h
        cases h
      | error e0 =>
        rw [hlibs] at h
        simp only [] at h
        rcases hc : callAnswer env st none folder sid (some "Please follow the json structure") with ⟨res, st1⟩
        rw [hc] at h
        cases res with
        | error e1 =>
          cases h
          rcases callAnswer_err_shape env st none folder sid _ e (by rw [hc]) with h1 | ⟨m, h1⟩ | h1
          · exact Or.inl h1
          · exact Or.inr (Or.inl ⟨m, h1⟩)
          · exact Or.inr (Or.inr (Or.inl h1))
        | ok g2 =>
          simp only [] at h
          cases hcode2 : jGetStr g2 "code" with
          | error e1 =>
            rw [hcode2] at h
            cases h
            exact Or.inr (Or.inr (Or.inr ⟨_, jGetStr_err _ _ _ hcode2⟩))
          | ok code2 =>
            rw [hcode2] at h
            simp only [] at h
            cases hlibs2 : jGetLibs g2 "libraries" with
            | error e1 =>
              rw [hlibs2] at h
              cases h
              exact Or.inr (Or.inr (Or.inr ⟨_, jGetLibs_err _ _ _ hlibs2⟩))
            | ok libs2 =>
              rw [hlibs2] at h
              simp only [] at h
              cases h
    | error e0 =>
      rw [hcode] at h
      simp only [] at h
      rcases hc : callAnswer env st none folder sid (some "Please follow the json structure") with ⟨res, st1⟩
      rw [hc] at h
      cases res with
      | error e1 =>
        cases h
        rcases callAnswer_err_shape env st none folder sid _ e (by rw [hc]) with h1 | ⟨m, h1⟩ | h1
        · exact Or.inl h1
        · exact Or.inr (Or.inl ⟨m, h1⟩)
        · exact Or.inr (Or.inr (Or.inl h1))
      | ok g2 =>
        simp only [] at h
        cases hcode2 : jGetStr g2 "code" with
        | error e1 =>
          rw [hcode2] at h
          cases h
          exact Or.inr (Or.inr (Or.inr ⟨_, jGetStr_err _ _ _ hcode2⟩))
        | ok code2 =>
          rw [hcode2] at h
          simp only [] at h
          cases hlibs2 : jGetLibs g2 "libraries" with
          | error e1 =>
            rw [hlibs2] at h
            cases h
            exact Or.inr (Or.inr (Or.inr ⟨_, jGetLibs_err _ _ _ hlibs2⟩))
          | ok libs2 =>
            rw [hlibs2] at h
            simp only [] at h
            cases h
  rcases hshape with h1 | ⟨m, h1⟩ | h1 | ⟨k, h1⟩ <;> subst h1
  · intro hc
    have := PyErr.fileNotFound.inj hc
    exact metadataPath_ne_resultPath folder this
  · exact fun hp => PyErr.noConfusion hp
  · exact fun hp => PyErr.noConfusion hp
  · exact fun hp => PyErr.noConfusion hp

/-- Once an answer_with_data call has succeeded, the analysis-stage retry
loop ends in a state where result.json exists (the successful call
created the placeholder, and every later step preserves it). -/
theorem step5Loop_estab (env : Env) (folder sid : String) (questions : Json)
    (hpres : preservesRes env folder) :
    ∀ (fuel attempt : Nat) (errOcc : Bool) (rm : String) (g : Option Json)
      (st : SysState),
      (g ≠ none → resOk folder st.fs) →
      (step5Loop env folder sid questions fuel attempt errOcc rm g st).1 ≠ none →
      resOk folder (step5Loop env folder sid questions fuel attempt errOcc rm g st).2.fs := by
  intro fuel
  induction fuel with
  | zero =>
    intro attempt errOcc rm g st hg
    simp only [step5Loop]
    exact hg
  | succ n ih =>
    intro attempt errOcc rm g st hg
    cases errOcc with
    | true =>
      simp only [step5Loop, if_true]
      rcases hc : callAnswer env st none folder sid (some rm) with ⟨res, st1⟩
      cases res with
      | ok ga =>
        simp only []
        apply ih (attempt + 1) true rm (some ga) st1
        intro _
        have h := callAnswer_resOk_of_ok env st none folder sid (some rm) ga (by rw [hc])
        rw [hc] at h
        exact h
      | error e =>
        simp only []
        apply ih (attempt + 1) true (last_n_words e.toStr 100) g st1
        intro hgne
        have h := callAnswer_resOk_preserve env st none folder sid (some rm) (hg hgne)
        rw [hc] at h
        exact h
    | false =>
      simp only [step5Loop, Bool.false_eq_true, if_false]
      rcases hc : callAnswer env st (some (jsonDump questions)) folder sid none with ⟨res, st1⟩
      cases res with
      | ok ga =>
        simp only []
        have hestab : resOk folder st1.fs := by
          have h := callAnswer_resOk_of_ok env st (some (jsonDump questions)) folder sid none ga (by rw [hc])
          rw [hc] at h
          exact h
        cases jGetStr ga "code" with
        | ok c =>
          simp only []
          by_cases hobj : ga.isObj = true
          · rw [if_pos hobj]
            intro _
            exact hestab
          · rw [if_neg hobj]
            exact ih (attempt + 1) false rm (some ga) st1 (fun _ => hestab)
        | error e =>
          simp only []
          exact ih (attempt + 1) true (last_n_words e.toStr 100) (some ga) st1 (fun _ => hestab)
      | error e =>
        simp only []
        apply ih (attempt + 1) true (last_n_words e.toStr 100) g st1
        intro hgne
        have h := callAnswer_resOk_preserve env st (some (jsonDump questions)) folder sid none (hg hgne)
        rw [hc] at h
        exact h

/-- When result.json exists, the terminal read never raises. -/
theorem finalRead_ne_raised (fs : FS) (folder : String) (h : resOk folder fs) :
    ∀ e, finalRead fs folder ≠ .raised e := by
  intro e
  unfold resOk at h
  cases hr : FS.read fs (resultPath folder) with
  | none =>
    rw [hr] at h
    cases h
  | some content =>
    unfold finalRead
    rw [hr]
    simp only []
    cases hj : jsonParse content with
    | none => exact fun hc => ApiResult.noConfusion hc
    | some data => exact fun hc => ApiResult.noConfusion hc

/-- Every run of the orchestrator is a sleep-free event extension of its
starting state and preserves the result.json invariant. -/
theorem analyze_stepOk (env : Env) (fuel6 : Nat) (folder rid : String)
    (qt uf : Option String) (st0 : SysState) :
    stepOk env folder st0 (analyze env fuel6 folder rid qt uf st0).2 := by
  unfold analyze
  rcases h3 : step3Loop env folder rid qt uf 3 0 false "" none st0 with ⟨respOpt, st1⟩
  have H1 : stepOk env folder st0 st1 := by
    have h := step3Loop_stepOk env folder rid qt uf 3 0 false "" none st0
    rw [h3] at h
    exact h
  cases respOpt with
  | none => exact H1
  | some resp =>
    simp only []
    by_cases hobj : resp.isObj = false
    · rw [if_pos hobj]
      exact H1
    · rw [if_neg hobj]
      cases jGetStr resp "code" with
      | error e => exact H1
      | ok code =>
        simp only []
        cases jGetLibs resp "libraries" with
        | error e => exact H1
        | ok libs =>
          simp only []
          rcases hr0 : callRun env st1 code libs folder with ⟨er0, st2⟩
          have H2 : stepOk env folder st0 st2 := by
            have h := stepOk_callRun env st1 code libs folder
            rw [hr0] at h
            exact stepOk_trans H1 h
          rcases h4 : step4Loop env folder rid 3 0 resp er0 st2 with ⟨res4, st3⟩
          have H3 : stepOk env folder st0 st3 := by
            have h := step4Loop_stepOk env folder rid 3 0 resp er0 st2
            rw [h4] at h
            exact stepOk_trans H2 h
          cases res4 with
          | error e => exact H3
          | ok pr =>
            rcases pr with ⟨resp2, er2⟩
            simp only []
            by_cases hc2 : er2.code ≠ 1
            · rw [if_pos hc2]
              exact H3
            · rw [if_neg hc2]
              cases jGetAny resp2 "questions" with
              | error e => exact H3
              | ok questions =>
                simp only []
                rcases h5 : step5Loop env folder rid questions 3 0 false "" none st3 with ⟨gOpt, st4⟩
                have H4 : stepOk env folder st0 st4 := by
                  have h := step5Loop_stepOk env folder rid questions 3 0 false "" none st3
                  rw [h5] at h
                  exact stepOk_trans H3 h
                cases gOpt with
                | none => exact H4
                | some g =>
                  simp only []
                  by_cases hgo : g.isObj = false
                  · rw [if_pos hgo]
                    exact H4
                  · rw [if_neg hgo]
                    rcases h6 : step6Try env folder rid g st4 with ⟨res6, st5⟩
                    have H5 : stepOk env folder st0 st5 := by
                      have h := step6Try_stepOk env folder rid g st4
                      rw [h6] at h
                      exact stepOk_trans H4 h
                    cases res6 with
                    | error e => exact H5
                    | ok pr6 =>
                      rcases pr6 with ⟨g1, fr0⟩
                      simp only []
                      rcases h6l : step6Loop env folder rid fuel6 0 true g1 fr0 st5 with ⟨res6l, st6⟩
                      have H6 : stepOk env folder st0 st6 := by
                        have h := step6Loop_stepOk env folder rid fuel6 0 true g1 fr0 st5
                        rw [h6l] at h
                        exact stepOk_trans H5 h
                      cases res6l with
                      | none => exact H6
                      | some pr6l =>
                        rcases pr6l with ⟨g2, fr2⟩
                        simp only []
                        by_cases hfr : fr2.code = 1
                        · rw [if_pos hfr]
                          exact H6
                        · rw [if_neg hfr]
                          rcases hlt : lastTry env folder qt uf st6 with ⟨dOpt, st7⟩
                          have H7 : stepOk env folder st0 st7 := by
                            have h := lastTry_stepOk env folder qt uf st6
                            rw [hlt] at h
                            exact stepOk_trans H6 h
                          cases dOpt with
                          | none => exact H7
                          | some data => exact H7

theorem raised_ne_of_ne {e e2 : PyErr} (h : e ≠ e2) :
    ApiResult.raised e ≠ ApiResult.raised e2 :=
  fun hc => h (ApiResult.raised.inj hc)

/-- Claim C8 as amended: no backoff delay exists anywhere in the
pipeline. Starting from a sleep-free event history, the complete event
trace of any run stays sleep-free, for every oracle environment: after a
generation-stage fault the model client is re-invoked immediately, with
no delay of any duration inserted between attempts. -/
theorem C8_no_backoff (env : Env) (fuel6 : Nat) (folder rid : String)
    (qt uf : Option String) (st0 : SysState) (h0 : sleepFree st0.events) :
    sleepFree (analyze env fuel6 folder rid qt uf st0).2.events :=
  sleepFree_of_evExt (analyze_stepOk env fuel6 folder rid qt uf st0).1 h0

/-- Witness for C8_no_backoff: the all-faults run performs its three
model invocations with no sleep anywhere in the trace. -/
theorem C8_no_backoff_witness :
    sleepFree (analyze envParseFault 9 "uploads/r1" "r1" (some "q") (some "files")
      st0run).2.events :=
  C8_no_backoff envParseFault 9 "uploads/r1" "r1" (some "q") (some "files") st0run
    (by intro e he; simp [st0run] at he)

/-! ### Claim C10 (result.json placeholder and unreachability of the
absent-artifact case). -/

/-- Oracle: a fully successful run with no filesystem effects from the
executed generated code. -/
def envSuccess : Env :=
  ⟨fun _ => .ok goodReply, fun _ => .ok goodAnswerReply, fun _ => benignPy,
   fun _ fs => fs⟩

/-- Claim C10, counterexample: the claim concludes that in every run
reaching the analysis stage the final-artifact path exists by the time
the orchestrator reads it, so the absent-file case is unreachable. But
the pipeline places no constraint on what the executed generated code
does to the filesystem: in this run the analysis stage is reached (one
analysis-stage model invocation happens) and its generated code deletes
result.json, after which the terminal read raises FileNotFoundError for
the final artifact path - the absent-file case is reachable. -/
theorem C10_counterexample :
    (analyze envDeleteResult 9 "uploads/r1" "r1" (some "q") (some "files")
      st0run).1 = .raised (.fileNotFound (resultPath "uploads/r1")) ∧
    countAnswerEv (analyze envDeleteResult 9 "uploads/r1" "r1" (some "q")
      (some "files") st0run).2.events = 1 := ⟨rfl, rfl⟩

/-- Claim C10 as amended: answer_with_data creates an empty result.json
placeholder (if none exists) before the model turn is sent - the file
exists in the resulting filesystem for every reply outcome, including a
faulted send, and when it was absent it now holds the empty string.
Consequently, in every run whose executed generated code never deletes
an existing result.json, the absent-file case of the terminal artifact
read is unreachable - no run ends with the read raising
FileNotFoundError for the final artifact path, leaving the empty or
unparseable file as the only reachable artifact failure modes there. A
run whose generated code does delete the file escapes this (see the
counterexample). -/
theorem C10_placeholder_invariant :
    (∀ (reply : Except String String) (sessions : List (String × ChatSession))
       (fs : FS) (qt : Option String) (folder sid : String) (rm : Option String)
       (md : String), FS.read fs (metadataPath folder) = some md →
       resOk folder (answer_with_data reply sessions fs qt folder sid rm).2.2 ∧
       (FS.read fs (resultPath folder) = none →
         FS.read (answer_with_data reply sessions fs qt folder sid rm).2.2
           (resultPath folder) = some "")) ∧
    (∀ (env : Env) (fuel6 : Nat) (folder rid : String) (qt uf : Option String)
       (st0 : SysState), preservesRes env folder →
       (analyze env fuel6 folder rid qt uf st0).1 ≠
         ApiResult.raised (.fileNotFound (resultPath folder))) := by
  constructor
  · intro reply sessions fs qt folder sid rm md hmd
    have hfs : (answer_with_data reply sessions fs qt folder sid rm).2.2 =
        (if (FS.read fs (resultPath folder)).isSome then fs
         else FS.write fs (resultPath folder) "") := by
      cases reply with
      | error m => simp [answer_with_data, hmd]
      | ok text =>
        cases hp : jsonParse text with
        | none => simp [answer_with_data, hmd, hp]
        | some j => simp [answer_with_data, hmd, hp]
    constructor
    · unfold resOk
      rw [hfs]
      split
      · assumption
      · rw [FS.read_write]
        simp
    · intro habs
      rw [hfs, if_neg (by simp [habs]), FS.read_write]
      simp
  · intro env fuel6 folder rid qt uf st0 hpres
    unfold analyze
    rcases h3 : step3Loop env folder rid qt uf 3 0 false "" none st0 with ⟨respOpt, st1⟩
    cases respOpt with
    | none => exact fun hc => ApiResult.noConfusion hc
    | some resp =>
      simp only []
      by_cases hobj : resp.isObj = false
      · rw [if_pos hobj]
        exact fun hc => ApiResult.noConfusion hc
      · rw [if_neg hobj]
        cases hcode : jGetStr resp "code" with
        | error e =>
          simp only []
          have he := jGetStr_err _ _ _ hcode
          subst he
          exact raised_ne_of_ne (keyError_noFNF _ _)
        | ok code =>
          simp only []
          cases hlibs : jGetLibs resp "libraries" with
          | error e =>
            simp only []
            have he := jGetLibs_err _ _ _ hlibs
            subst he
            exact raised_ne_of_ne (keyError_noFNF _ _)
          | ok libs =>
            simp only []
            rcases hr0 : callRun env st1 code libs folder with ⟨er0, st2⟩
            rcases h4 : step4Loop env folder rid 3 0 resp er0 st2 with ⟨res4, st3⟩
            cases res4 with
            | error e =>
              exact raised_ne_of_ne
                (step4Loop_err_noFNF env folder rid 3 0 resp er0 st2 e (by rw [h4]) _)
            | ok pr =>
              rcases pr with ⟨resp2, er2⟩
              simp only []
              by_cases hc2 : er2.code ≠ 1
              · rw [if_pos hc2]
                exact fun hc => ApiResult.noConfusion hc
              · rw [if_neg hc2]
                cases hq : jGetAny resp2 "questions" with
                | error e =>
                  simp only []
                  have he := jGetAny_err _ _ _ hq
                  subst he
                  exact raised_ne_of_ne (keyError_noFNF _ _)
                | ok questions =>
                  simp only []
                  rcases h5 : step5Loop env folder rid questions 3 0 false "" none st3 with ⟨gOpt, st4⟩
                  cases gOpt with
                  | none => exact fun hc => ApiResult.noConfusion hc
                  | some g =>
                    simp only []
                    have hres4 : resOk folder st4.fs := by
                      have h := step5Loop_estab env folder rid questions hpres 3 0 false "" none st3
                        (fun hne => absurd rfl hne)
                      rw [h5] at h
                      exact h (by simp)
                    by_cases hgo : g.isObj = false
                    · rw [if_pos hgo]
                      exact fun hc => ApiResult.noConfusion hc
                    · rw [if_neg hgo]
                      rcases h6 : step6Try env folder rid g st4 with ⟨res6, st5⟩
                      have hres5 : resOk folder st5.fs := by
                        have h := step6Try_stepOk env folder rid g st4
                        rw [h6] at h
                        exact h.2 hpres hres4
                      cases res6 with
                      | error e =>
                        exact raised_ne_of_ne (step6Try_err env folder rid g st4 e (by rw [h6]))
                      | ok pr6 =>
                        rcases pr6 with ⟨g1, fr0⟩
                        simp only []
                        rcases h6l : step6Loop env folder rid fuel6 0 true g1 fr0 st5 with ⟨res6l, st6⟩
                        have hres6 : resOk folder st6.fs := by
                          have h := step6Loop_stepOk env folder rid fuel6 0 true g1 fr0 st5
                          rw [h6l] at h
                          exact h.2 hpres hres5
                        cases res6l with
                        | none => exact fun hc => ApiResult.noConfusion hc
                        | some pr6l =>
                          rcases pr6l with ⟨g2, fr2⟩
                          simp only []
                          by_cases hfr : fr2.code = 1
                          · rw [if_pos hfr]
                            exact finalRead_ne_raised st6.fs folder hres6 _
                          · rw [if_neg hfr]
                            rcases hlt : lastTry env folder qt uf st6 with ⟨dOpt, st7⟩
                            have hres7 : resOk folder st7.fs := by
                              have h := lastTry_stepOk env folder qt uf st6
                              rw [hlt] at h
                              exact h.2 hpres hres6
                            cases dOpt with
                            | none => exact finalRead_ne_raised st7.fs folder hres7 _
                            | some data => exact fun hc => ApiResult.noConfusion hc

/-- Witness for C10_placeholder_invariant: a faulted send still leaves
the empty placeholder in place, and the fully successful run never
raises the missing-artifact fault. -/
theorem C10_placeholder_invariant_witness :
    resOk "u" (answer_with_data (.error "down") [] ⟨[("u/metadata.txt", "md")]⟩
      (some "q") "u" "s" none).2.2 ∧
    FS.read (answer_with_data (.error "down") [] ⟨[("u/metadata.txt", "md")]⟩
      (some "q") "u" "s" none).2.2 (resultPath "u") = some "" ∧
    (analyze envSuccess 9 "uploads/r1" "r1" (some "q") (some "files") st0run).1 ≠
      ApiResult.raised (.fileNotFound (resultPath "uploads/r1")) := by
  have h1 := C10_placeholder_invariant.1 (.error "down") [] ⟨[("u/metadata.txt", "md")]⟩
    (some "q") "u" "s" none "md" rfl
  refine ⟨h1.1, h1.2 rfl, ?_⟩
  exact C10_placeholder_invariant.2 envSuccess 9 "uploads/r1" "r1" (some "q")
    (some "files") st0run (fun i fs h => h)

/-! ### Counting model invocations and executions (claim C1). -/

theorem countParseEv_append (a b : List Ev) :
    countParseEv (a ++ b) = countParseEv a + countParseEv b := by
  induction a with
  | nil => simp [countParseEv]
  | cons e r ih => cases e <;> simp [countParseEv, ih] <;> omega

theorem countAnswerEv_append (a b : List Ev) :
    countAnswerEv (a ++ b) = countAnswerEv a + countAnswerEv b := by
  induction a with
  | nil => simp [countAnswerEv]
  | cons e r ih => cases e <;> simp [countAnswerEv, ih] <;> omega

theorem countRunEv_append (a b : List Ev) :
    countRunEv (a ++ b) = countRunEv a + countRunEv b := by
  induction a with
  | nil => simp [countRunEv]
  | cons e r ih => cases e <;> simp [countRunEv, ih] <;> omega

theorem callParse_err_res (env : Env) (st : SysState) (qt uf : Option String)
    (folder sid : String) (rm : Option String) (m : String)
    (hm : env.sendParse st.nParse = .error m) :
    (callParse env st qt uf folder sid rm).1 = .error (.sdkError m) := by
  simp [callParse, parse_question_with_llm, hm]

theorem callParse_ok_res (env : Env) (st : SysState) (qt uf : Option String)
    (folder sid : String) (rm : Option String) (text : String) (j : Json)
    (hr : env.sendParse st.nParse = .ok text) (hp : jsonParse text = some j) :
    (callParse env st qt uf folder sid rm).1 = .ok j := by
  simp [callParse, parse_question_with_llm, hr, hp]

/-- With the collection-stage model faulting on every call, the
generation retry loop makes exactly one model invocation per unit of
remaining budget, performs no execution, and leaves the response as it
found it. -/
theorem step3Loop_all_err (env : Env) (folder sid : String) (qt uf : Option String)
    (hfail : ∀ i, ∃ m, env.sendParse i = .error m) :
    ∀ (fuel attempt : Nat) (errOcc : Bool) (rm : String) (resp : Option Json)
      (st : SysState),
      (step3Loop env folder sid qt uf fuel attempt errOcc rm resp st).1 = resp ∧
      countParseEv (step3Loop env folder sid qt uf fuel attempt errOcc rm resp st).2.events =
        countParseEv st.events + fuel ∧
      countRunEv (step3Loop env folder sid qt uf fuel attempt errOcc rm resp st).2.events =
        countRunEv st.events ∧
      countAnswerEv (step3Loop env folder sid qt uf fuel attempt errOcc rm resp st).2.events =
        countAnswerEv st.events := by
  intro fuel
  induction fuel with
  | zero =>
    intro attempt errOcc rm resp st
    exact ⟨rfl, by simp [step3Loop], by simp [step3Loop], by simp [step3Loop]⟩
  | succ n ih =>
    intro attempt errOcc rm resp st
    obtain ⟨m, hm⟩ := hfail st.nParse
    cases errOcc with
    | false =>
      have hpair : callParse env st qt uf folder sid none =
          (.error (.sdkError m), (callParse env st qt uf folder sid none).2) := by
        rw [← callParse_err_res env st qt uf folder sid none m hm]
      simp only [step3Loop, Bool.false_eq_true, if_false]
      rw [hpair]
      simp only []
      obtain ⟨ihr, ihp, ihc, iha⟩ := ih (attempt + 1) true
        (last_n_words (PyErr.sdkError m).toStr 100 ++ "Provide a valid JSON response")
        resp ((callParse env st qt uf folder sid none).2)
      refine ⟨ihr, ?_, ?_, ?_⟩
      · rw [ihp, callParse_events, countParseEv_append]
        simp [countParseEv]
        omega
      · rw [ihc, callParse_events, countRunEv_append]
        simp [countRunEv]
      · rw [iha, callParse_events, countAnswerEv_append]
        simp [countAnswerEv]
    | true =>
      have hpair : callParse env st none none folder sid (some rm) =
          (.error (.sdkError m), (callParse env st none none folder sid (some rm)).2) := by
        rw [← callParse_err_res env st none none folder sid (some rm) m hm]
      simp only [step3Loop, if_true]
      rw [hpair]
      simp only []
      obtain ⟨ihr, ihp, ihc, iha⟩ := ih (attempt + 1) true
        (last_n_words (PyErr.sdkError m).toStr 100 ++ "Provide a valid JSON response")
        resp ((callParse env st none none folder sid (some rm)).2)
      refine ⟨ihr, ?_, ?_, ?_⟩
      · rw [ihp, callParse_events, countParseEv_append]
        simp [countParseEv]
        omega
      · rw [ihc, callParse_events, countRunEv_append]
        simp [countRunEv]
      · rw [iha, callParse_events, countAnswerEv_append]
        simp [countAnswerEv]

/-- The parsed form of goodReply. -/
def goodReplyJson : Json :=
  Json.jobj [("code", Json.jstr "c"), ("libraries", Json.jarr []),
             ("questions", Json.jarr [Json.jstr "q1"])]

/-- goodReply with the comment field the break path of the collection
generation loop adds. -/
def goodReplyJson1 (attempt : Nat) : Json :=
  Json.setField goodReplyJson "comment"
    (.jstr ("Step-3: Getting scrap code and metadata from llm. Tries count = %d " ++
      toString attempt))

/-- A well-formed dict reply makes the collection generation loop break
on its first remaining attempt, returning the commented response and
appending it to llm_response.txt. -/
theorem step3Loop_ok_break (env : Env) (folder sid : String) (qt uf : Option String)
    (n attempt : Nat) (rm : String) (resp : Option Json) (st : SysState)
    (hok : env.sendParse st.nParse = .ok goodReply) :
    step3Loop env folder sid qt uf (n + 1) attempt false rm resp st =
      (some (goodReplyJson1 attempt),
       { (callParse env st qt uf folder sid none).2 with
           fs := FS.append (callParse env st qt uf folder sid none).2.fs (llmPath folder)
             (jsonDump (goodReplyJson1 attempt)) }) := by
  have hpair : callParse env st qt uf folder sid none =
      (.ok goodReplyJson, (callParse env st qt uf folder sid none).2) := by
    rw [← callParse_ok_res env st qt uf folder sid none goodReply goodReplyJson hok rfl]
  simp only [step3Loop, Bool.false_eq_true, if_false]
  rw [hpair]
  simp only []
  rw [if_pos (show goodReplyJson.isObj = true from rfl)]
  rfl

theorem callRun_fail_res (env : Env) (st : SysState) (code folder tb : String)
    (htb : (env.pyEnv st.nRun).execRes = .error tb) :
    (callRun env st code [] folder).1 = ⟨0, execFailMessage tb⟩ := by
  simp [callRun, run_python_code, installLoop, htb]

theorem callRun_ok_res (env : Env) (st : SysState) (code folder : String)
    (hok : (env.pyEnv st.nRun).execRes = .ok ()) :
    (callRun env st code [] folder).1 = ⟨1, successMessage⟩ := by
  simp [callRun, run_python_code, installLoop, hok]

/-! ### Preservation of the absence of data.csv and the presence of
metadata.txt through the pipeline operations. -/

theorem llmPath_ne_metadataPath (f : String) : llmPath f ≠ metadataPath f :=
  append_ne_of_ne f "/llm_response.txt" "/metadata.txt" (by decide)

theorem execLogPath_ne_metadataPath (f : String) : execLogPath f ≠ metadataPath f :=
  append_ne_of_ne f "/execution_result.txt" "/metadata.txt" (by decide)

theorem resultPath_ne_metadataPath (f : String) : resultPath f ≠ metadataPath f :=
  append_ne_of_ne f "/result.json" "/metadata.txt" (by decide)

theorem callParse_csv_none (env : Env) (st : SysState) (qt uf : Option String)
    (folder sid : String) (rm : Option String)
    (h : FS.read st.fs (csvPath folder) = none) :
    FS.read (callParse env st qt uf folder sid rm).2.fs (csvPath folder) = none := by
  rw [callParse_fs]
  split
  · exact h
  · rw [FS.read_write_ne _ _ _ _ (metadataPath_ne_csvPath folder)]
    exact h

theorem callRun_csv_none (env : Env) (st : SysState) (code : String)
    (libs : List String) (folder : String)
    (hfx : ∀ i fs, FS.read fs (csvPath folder) = none →
      FS.read (env.execFx i fs) (csvPath folder) = none)
    (h : FS.read st.fs (csvPath folder) = none) :
    FS.read (callRun env st code libs folder).2.fs (csvPath folder) = none := by
  unfold callRun
  simp only []
  rw [read_foldl_append_ne _ _ _ _ (execLogPath_ne_csvPath folder)]
  split
  · apply hfx
    rw [read_foldl_append_ne _ _ _ _ (execLogPath_ne_csvPath folder)]
    exact h
  · rw [read_foldl_append_ne _ _ _ _ (execLogPath_ne_csvPath folder)]
    exact h

/-- metadata.txt exists after any parse_question_with_llm call (it is
created empty when absent, before the model turn). -/
theorem callParse_metadata (env : Env) (st : SysState) (qt uf : Option String)
    (folder sid : String) (rm : Option String) :
    (FS.read (callParse env st qt uf folder sid rm).2.fs (metadataPath folder)).isSome := by
  rw [callParse_fs]
  split
  · assumption
  · rw [FS.read_write]
    simp

theorem callRun_metadata (env : Env) (st : SysState) (code : String)
    (libs : List String) (folder : String)
    (hfx : ∀ i fs, (FS.read fs (metadataPath folder)).isSome →
      (FS.read (env.execFx i fs) (metadataPath folder)).isSome)
    (h : (FS.read st.fs (metadataPath folder)).isSome) :
    (FS.read (callRun env st code libs folder).2.fs (metadataPath folder)).isSome := by
  unfold callRun
  simp only []
  rw [read_foldl_append_ne _ _ _ _ (execLogPath_ne_metadataPath folder)]
  split
  · apply hfx
    rw [read_foldl_append_ne _ _ _ _ (execLogPath_ne_metadataPath folder)]
    exact h
  · rw [read_foldl_append_ne _ _ _ _ (execLogPath_ne_metadataPath folder)]
    exact h

/-- With no data.csv present, the empty-csv retry loop is a no-op. -/
theorem csvLoop_none (env : Env) (folder sid : String) (fuel cr : Nat)
    (resp : Json) (er : RunOutcome) (st : SysState)
    (h : FS.read st.fs (csvPath folder) = none) :
    csvLoop env folder sid fuel cr resp er st = (.ok (resp, er), st) := by
  cases fuel with
  | zero => rfl
  | succ n =>
    rw [csvLoop, if_neg]
    simp [h]

/-- A successful execution outcome makes the collection execution retry
loop exit immediately. -/
theorem step4Loop_done (env : Env) (folder sid : String) (fuel count : Nat)
    (resp : Json) (er : RunOutcome) (st : SysState) (h : er.code = 1) :
    step4Loop env folder sid fuel count resp er st = (.ok (resp, er), st) := by
  cases fuel with
  | zero => rfl
  | succ n =>
    rw [step4Loop, if_neg]
    simp [h]

/-- With well-formed replies but execution failing on every attempt (and
data.csv never appearing), every unit of remaining budget of the
collection execution retry loop costs exactly one model invocation and
one execution, and the loop ends with a failing outcome. -/
theorem step4Loop_allfail (env : Env) (folder sid : String)
    (hparse : ∀ i, env.sendParse i = .ok goodReply)
    (hrun : ∀ i, ∃ tb, (env.pyEnv i).execRes = .error tb)
    (hfx : ∀ i fs, FS.read fs (csvPath folder) = none →
      FS.read (env.execFx i fs) (csvPath folder) = none) :
    ∀ (fuel count : Nat) (resp : Json) (er : RunOutcome) (st : SysState),
      er.code = 0 → FS.read st.fs (csvPath folder) = none →
      (∃ pr, (step4Loop env folder sid fuel count resp er st).1 = .ok pr ∧ pr.2.code = 0) ∧
      countParseEv (step4Loop env folder sid fuel count resp er st).2.events =
        countParseEv st.events + fuel ∧
      countRunEv (step4Loop env folder sid fuel count resp er st).2.events =
        countRunEv st.events + fuel := by
  intro fuel
  induction fuel with
  | zero =>
    intro count resp er st h0 hcsv
    simp only [step4Loop]
    exact ⟨⟨(resp, er), rfl, h0⟩, by omega, by omega⟩
  | succ n ih =>
    intro count resp er st h0 hcsv
    have hpair : callParse env st none none folder sid (some (last_n_words er.output 100)) =
        (.ok goodReplyJson, (callParse env st none none folder sid (some (last_n_words er.output 100))).2) := by
      rw [← callParse_ok_res env st none none folder sid (some (last_n_words er.output 100))
        goodReply goodReplyJson (hparse st.nParse) rfl]
    rw [step4Loop, if_pos h0]
    simp only []
    rw [hpair]
    simp only []
    have hAcsv0 := callParse_csv_none env st none none folder sid
      (some (last_n_words er.output 100)) hcsv
    generalize hA : (callParse env st none none folder sid (some (last_n_words er.output 100))).2 = A at hAcsv0
    generalize hR : Json.setField goodReplyJson "comment" (Json.jstr ("Step-4: Error occured while scrapping. Tries count = %d, " ++ toString count)) = R
    have hRc : jGetStr R "code" = Except.ok "c" := by
      rw [← hR]
      rfl
    have hRl : jGetLibs R "libraries" = Except.ok [] := by
      rw [← hR]
      rfl
    rw [hRc]
    simp only []
    rw [hRl]
    simp only []
    generalize hB : ({ A with fs := FS.append A.fs (llmPath folder) (jsonDump R) } : SysState) = B
    obtain ⟨tb, htb⟩ := hrun st.nRun
    have hBn : B.nRun = st.nRun := by
      rw [← hB, ← hA]
      rfl
    have htbB : (env.pyEnv B.nRun).execRes = .error tb := by
      rw [hBn]
      exact htb
    have hkr : callRun env B "c" [] folder =
        (⟨0, execFailMessage tb⟩, (callRun env B "c" [] folder).2) := by
      rw [← callRun_fail_res env B "c" folder tb htbB]
    rw [hkr]
    simp only []
    have hBcsv : FS.read B.fs (csvPath folder) = none := by
      rw [← hB]
      show FS.read (FS.append A.fs (llmPath folder) (jsonDump R)) (csvPath folder) = none
      rw [FS.read_append_ne _ _ _ _ (llmPath_ne_csvPath folder)]
      exact hAcsv0
    have hCcsv : FS.read (callRun env B "c" [] folder).2.fs (csvPath folder) = none :=
      callRun_csv_none env B "c" [] folder hfx hBcsv
    rw [csvLoop_none env folder sid 3 0 R ⟨0, execFailMessage tb⟩
      ((callRun env B "c" [] folder).2) hCcsv]
    simp only []
    obtain ⟨ih1, ih2, ih3⟩ := ih (count + 1) R ⟨0, execFailMessage tb⟩
      ((callRun env B "c" [] folder).2) rfl hCcsv
    have hBev : B.events = st.events ++ [Ev.genParse] := by
      rw [← hB, ← hA]
      rfl
    have hCev : ((callRun env B "c" [] folder).2).events = B.events ++ [Ev.runCall] := rfl
    refine ⟨ih1, ?_, ?_⟩
    · rw [ih2, hCev, hBev, countParseEv_append, countParseEv_append]
      simp [countParseEv]
      omega
    · rw [ih3, hCev, hBev, countRunEv_append, countRunEv_append]
      simp [countRunEv]
      omega

theorem callAnswer_err_res (env : Env) (st : SysState) (qt : Option String)
    (folder sid : String) (rm : Option String) (md m : String)
    (hmd : FS.read st.fs (metadataPath folder) = some md)
    (hr : env.sendAnswer st.nAnswer = .error m) :
    (callAnswer env st qt folder sid rm).1 = .error (.sdkError m) := by
  simp [callAnswer, answer_with_data, hmd, hr]

theorem callAnswer_metadata (env : Env) (st : SysState) (qt : Option String)
    (folder sid : String) (rm : Option String) (md : String)
    (hmd : FS.read st.fs (metadataPath folder) = some md) :
    (FS.read (callAnswer env st qt folder sid rm).2.fs (metadataPath folder)).isSome := by
  rw [(callAnswer_present_fs env st qt folder sid rm md hmd).1]
  split
  · simp [hmd]
  · rw [FS.read_write_ne _ _ _ _ (resultPath_ne_metadataPath folder)]
    simp [hmd]

/-- With metadata.txt present and the analysis-stage model faulting on
every call, the analysis generation retry loop makes exactly one model
invocation per unit of remaining budget and leaves gpt_ans as it found
it. -/
theorem step5Loop_all_err (env : Env) (folder sid : String) (questions : Json)
    (hfail : ∀ i, ∃ m, env.sendAnswer i = .error m) :
    ∀ (fuel attempt : Nat) (errOcc : Bool) (rm : String) (g : Option Json)
      (st : SysState),
      (FS.read st.fs (metadataPath folder)).isSome →
      (step5Loop env folder sid questions fuel attempt errOcc rm g st).1 = g ∧
      countAnswerEv (step5Loop env folder sid questions fuel attempt errOcc rm g st).2.events =
        countAnswerEv st.events + fuel ∧
      countParseEv (step5Loop env folder sid questions fuel attempt errOcc rm g st).2.events =
        countParseEv st.events ∧
      countRunEv (step5Loop env folder sid questions fuel attempt errOcc rm g st).2.events =
        countRunEv st.events := by
  intro fuel
  induction fuel with
  | zero =>
    intro attempt errOcc rm g st hmd
    exact ⟨rfl, by simp [step5Loop], by simp [step5Loop], by simp [step5Loop]⟩
  | succ n ih =>
    intro attempt errOcc rm g st hmd
    obtain ⟨m, hm⟩ := hfail st.nAnswer
    obtain ⟨md, hmd2⟩ : ∃ md, FS.read st.fs (metadataPath folder) = some md := by
      cases hx : FS.read st.fs (metadataPath folder) with
      | none =>
        rw [hx] at hmd
        cases hmd
      | some md => exact ⟨md, rfl⟩
    cases errOcc with
    | true =>
      have hpair : callAnswer env st none folder sid (some rm) =
          (.error (.sdkError m), (callAnswer env st none folder sid (some rm)).2) := by
        rw [← callAnswer_err_res env st none folder sid (some rm) md m hmd2 hm]
      simp only [step5Loop, if_true]
      rw [hpair]
      simp only []
      have hmd3 := callAnswer_metadata env st none folder sid (some rm) md hmd2
      obtain ⟨ih1, ih2, ih3, ih4⟩ := ih (attempt + 1) true
        (last_n_words (PyErr.sdkError m).toStr 100) g
        ((callAnswer env st none folder sid (some rm)).2) hmd3
      have hev := (callAnswer_present_fs env st none folder sid (some rm) md hmd2).2
      refine ⟨ih1, ?_, ?_, ?_⟩
      · rw [ih2, hev, countAnswerEv_append]
        simp [countAnswerEv]
        omega
      · rw [ih3, hev, countParseEv_append]
        simp [countParseEv]
      · rw [ih4, hev, countRunEv_append]
        simp [countRunEv]
    | false =>
      have hpair : callAnswer env st (some (jsonDump questions)) folder sid none =
          (.error (.sdkError m), (callAnswer env st (some (jsonDump questions)) folder sid none).2) := by
        rw [← callAnswer_err_res env st (some (jsonDump questions)) folder sid none md m hmd2 hm]
      simp only [step5Loop, Bool.false_eq_true, if_false]
      rw [hpair]
      simp only []
      have hmd3 := callAnswer_metadata env st (some (jsonDump questions)) folder sid none md hmd2
      obtain ⟨ih1, ih2, ih3, ih4⟩ := ih (attempt + 1) true
        (last_n_words (PyErr.sdkError m).toStr 100) g
        ((callAnswer env st (some (jsonDump questions)) folder sid none).2) hmd3
      have hev := (callAnswer_present_fs env st (some (jsonDump questions)) folder sid none md hmd2).2
      refine ⟨ih1, ?_, ?_, ?_⟩
      · rw [ih2, hev, countAnswerEv_append]
        simp [countAnswerEv]
        omega
      · rw [ih3, hev, countParseEv_append]
        simp [countParseEv]
      · rw [ih4, hev, countRunEv_append]
        simp [countRunEv]

/-- Oracle: collection succeeds but every analysis-stage model call
faults. -/
def envAnswerFault : Env :=
  ⟨fun _ => .ok goodReply, fun _ => .error "service unavailable",
   fun _ => benignPy, fun _ fs => fs⟩

/-- Claim C1 as amended: (a) when every collection-stage model call
faults, the orchestrator performs exactly 3 generation attempts and no
execution before escalating to the collection-stage failure - it never
attempts a 4th time, and faulted or malformed replies consume attempts
without resetting or extending the budget; (b) when every analysis-stage
model call faults after a successful collection, exactly 3 analysis
generation attempts are performed before the analysis-stage failure; but
(c) when generation always succeeds and execution fails on every
attempt (with data.csv never appearing), the collection stage performs
exactly 4 generate-execute attempts - the initial one plus 3 retry
rounds, one more than the claimed bound of 3 - before escalating, and
the empty-data.csv sub-loop can add up to 3 more per round. -/
theorem C1_attempt_budget :
    (∀ (env : Env) (fuel6 : Nat) (folder rid : String) (qt uf : Option String)
       (fs0 : FS) (ps as2 : List (String × ChatSession)),
       (∀ i, ∃ m, env.sendParse i = .error m) →
       (analyze env fuel6 folder rid qt uf ⟨fs0, ps, as2, 0, 0, 0, []⟩).1 =
         .message parseFailMessage ∧
       countParseEv (analyze env fuel6 folder rid qt uf ⟨fs0, ps, as2, 0, 0, 0, []⟩).2.events = 3 ∧
       countRunEv (analyze env fuel6 folder rid qt uf ⟨fs0, ps, as2, 0, 0, 0, []⟩).2.events = 0) ∧
    (∀ (env : Env) (fuel6 : Nat) (folder rid : String) (qt uf : Option String)
       (fs0 : FS) (ps as2 : List (String × ChatSession)),
       env.sendParse 0 = .ok goodReply →
       (env.pyEnv 0).execRes = .ok () →
       (∀ i, ∃ m, env.sendAnswer i = .error m) →
       (∀ i fs, (FS.read fs (metadataPath folder)).isSome →
         (FS.read (env.execFx i fs) (metadataPath folder)).isSome) →
       (analyze env fuel6 folder rid qt uf ⟨fs0, ps, as2, 0, 0, 0, []⟩).1 =
         .message answerFailMessage ∧
       countAnswerEv (analyze env fuel6 folder rid qt uf ⟨fs0, ps, as2, 0, 0, 0, []⟩).2.events = 3 ∧
       countParseEv (analyze env fuel6 folder rid qt uf ⟨fs0, ps, as2, 0, 0, 0, []⟩).2.events = 1 ∧
       countRunEv (analyze env fuel6 folder rid qt uf ⟨fs0, ps, as2, 0, 0, 0, []⟩).2.events = 1) ∧
    (∀ (env : Env) (fuel6 : Nat) (folder rid : String) (qt uf : Option String)
       (fs0 : FS) (ps as2 : List (String × ChatSession)),
       (∀ i, env.sendParse i = .ok goodReply) →
       (∀ i, ∃ tb, (env.pyEnv i).execRes = .error tb) →
       (∀ i fs, FS.read fs (csvPath folder) = none →
         FS.read (env.execFx i fs) (csvPath folder) = none) →
       FS.read fs0 (csvPath folder) = none →
       (analyze env fuel6 folder rid qt uf ⟨fs0, ps, as2, 0, 0, 0, []⟩).1 =
         .message scrapFailMessage ∧
       countRunEv (analyze env fuel6 folder rid qt uf ⟨fs0, ps, as2, 0, 0, 0, []⟩).2.events = 4 ∧
       countParseEv (analyze env fuel6 folder rid qt uf ⟨fs0, ps, as2, 0, 0, 0, []⟩).2.events = 4) := by
  refine ⟨?_, ?_, ?_⟩
  · intro env fuel6 folder rid qt uf fs0 ps as2 hfail
    obtain ⟨h1, h2, h3, h4⟩ := step3Loop_all_err env folder rid qt uf hfail 3 0 false "" none
      ⟨fs0, ps, as2, 0, 0, 0, []⟩
    unfold analyze
    rcases hs : step3Loop env folder rid qt uf 3 0 false "" none
        ⟨fs0, ps, as2, 0, 0, 0, []⟩ with ⟨respOpt, st1⟩
    rw [hs] at h1 h2 h3
    simp only [] at h1
    subst h1
    refine ⟨rfl, ?_, ?_⟩
    · simpa [countParseEv] using h2
    · simpa [countRunEv] using h3
  · intro env fuel6 folder rid qt uf fs0 ps as2 hp0 hr0 hafail hfxm
    unfold analyze
    rw [show (3 : Nat) = 2 + 1 from rfl]
    rw [step3Loop_ok_break env folder rid qt uf 2 0 "" none ⟨fs0, ps, as2, 0, 0, 0, []⟩ hp0]
    simp only []
    rw [if_neg (by decide : ¬ (goodReplyJson1 0).isObj = false)]
    rw [show jGetStr (goodReplyJson1 0) "code" = Except.ok "c" from rfl]
    simp only []
    rw [show jGetLibs (goodReplyJson1 0) "libraries" = Except.ok [] from rfl]
    simp only []
    have hmdA := callParse_metadata env ⟨fs0, ps, as2, 0, 0, 0, []⟩ qt uf folder rid none
    generalize hA : (callParse env ⟨fs0, ps, as2, 0, 0, 0, []⟩ qt uf folder rid none).2 = A at hmdA
    generalize hB : ({ A with fs := FS.append A.fs (llmPath folder) (jsonDump (goodReplyJson1 0)) } : SysState) = B
    have hmdB : (FS.read B.fs (metadataPath folder)).isSome := by
      rw [← hB]
      show (FS.read (FS.append A.fs (llmPath folder) (jsonDump (goodReplyJson1 0))) (metadataPath folder)).isSome
      rw [FS.read_append_ne _ _ _ _ (llmPath_ne_metadataPath folder)]
      exact hmdA
    have hBn : B.nRun = 0 := by
      rw [← hB, ← hA]
      rfl
    have hrB : (env.pyEnv B.nRun).execRes = .ok () := by
      rw [hBn]
      exact hr0
    have hkr : callRun env B "c" [] folder =
        (⟨1, successMessage⟩, (callRun env B "c" [] folder).2) := by
      rw [← callRun_ok_res env B "c" folder hrB]
    rw [hkr]
    simp only []
    rw [step4Loop_done env folder rid (2 + 1) 0 (goodReplyJson1 0) ⟨1, successMessage⟩
      ((callRun env B "c" [] folder).2) rfl]
    simp only []
    rw [if_neg (by simp : ¬ (⟨1, successMessage⟩ : RunOutcome).code ≠ 1)]
    rw [show jGetAny (goodReplyJson1 0) "questions" = Except.ok (Json.jarr [Json.jstr "q1"]) from rfl]
    simp only []
    have hmdC : (FS.read ((callRun env B "c" [] folder).2).fs (metadataPath folder)).isSome :=
      callRun_metadata env B "c" [] folder hfxm hmdB
    obtain ⟨h1, h2, h3, h4⟩ := step5Loop_all_err env folder rid (Json.jarr [Json.jstr "q1"])
      hafail (2 + 1) 0 false "" none ((callRun env B "c" [] folder).2) hmdC
    rcases hs : step5Loop env folder rid (Json.jarr [Json.jstr "q1"]) (2 + 1) 0 false "" none
        ((callRun env B "c" [] folder).2) with ⟨gOpt, st4⟩
    rw [hs] at h1 h2 h3 h4
    simp only [] at h1
    subst h1
    have hBev : B.events = [Ev.genParse] := by
      rw [← hB, ← hA]
      rfl
    have hCev : ((callRun env B "c" [] folder).2).events = B.events ++ [Ev.runCall] := rfl
    refine ⟨rfl, ?_, ?_, ?_⟩
    · simp only [] at h2
      rw [h2, hCev, hBev, countAnswerEv_append]
      simp [countAnswerEv]
    · simp only [] at h3
      rw [h3, hCev, hBev, countParseEv_append]
      simp [countParseEv]
    · simp only [] at h4
      rw [h4, hCev, hBev, countRunEv_append]
      simp [countRunEv]
  · intro env fuel6 folder rid qt uf fs0 ps as2 hparse hrun hfx hcsv0
    unfold analyze
    rw [show (3 : Nat) = 2 + 1 from rfl]
    rw [step3Loop_ok_break env folder rid qt uf 2 0 "" none ⟨fs0, ps, as2, 0, 0, 0, []⟩
      (hparse 0)]
    simp only []
    rw [if_neg (by decide : ¬ (goodReplyJson1 0).isObj = false)]
    rw [show jGetStr (goodReplyJson1 0) "code" = Except.ok "c" from rfl]
    simp only []
    rw [show jGetLibs (goodReplyJson1 0) "libraries" = Except.ok [] from rfl]
    simp only []
    have hcsvA := callParse_csv_none env ⟨fs0, ps, as2, 0, 0, 0, []⟩ qt uf folder rid none hcsv0
    generalize hA : (callParse env ⟨fs0, ps, as2, 0, 0, 0, []⟩ qt uf folder rid none).2 = A at hcsvA
    generalize hB : ({ A with fs := FS.append A.fs (llmPath folder) (jsonDump (goodReplyJson1 0)) } : SysState) = B
    have hcsvB : FS.read B.fs (csvPath folder) = none := by
      rw [← hB]
      show FS.read (FS.append A.fs (llmPath folder) (jsonDump (goodReplyJson1 0))) (csvPath folder) = none
      rw [FS.read_append_ne _ _ _ _ (llmPath_ne_csvPath folder)]
      exact hcsvA
    have hBn : B.nRun = 0 := by
      rw [← hB, ← hA]
      rfl
    obtain ⟨tb, htb⟩ := hrun 0
    have htbB : (env.pyEnv B.nRun).execRes = .error tb := by
      rw [hBn]
      exact htb
    have hkr : callRun env B "c" [] folder =
        (⟨0, execFailMessage tb⟩, (callRun env B "c" [] folder).2) := by
      rw [← callRun_fail_res env B "c" folder tb htbB]
    rw [hkr]
    simp only []
    have hcsvC : FS.read ((callRun env B "c" [] folder).2).fs (csvPath folder) = none :=
      callRun_csv_none env B "c" [] folder hfx hcsvB
    obtain ⟨⟨pr, hpr1, hpr2⟩, h2, h3⟩ := step4Loop_allfail env folder rid hparse hrun hfx
      (2 + 1) 0 (goodReplyJson1 0) ⟨0, execFailMessage tb⟩
      ((callRun env B "c" [] folder).2) rfl hcsvC
    rcases hs : step4Loop env folder rid (2 + 1) 0 (goodReplyJson1 0) ⟨0, execFailMessage tb⟩
        ((callRun env B "c" [] folder).2) with ⟨res4, st3⟩
    rw [hs] at hpr1 h2 h3
    simp only [] at hpr1
    subst hpr1
    rcases pr with ⟨resp2, er2⟩
    simp only []
    rw [if_pos (by simp at hpr2 ⊢; omega : (er2.code ≠ 1))]
    have hBev : B.events = [Ev.genParse] := by
      rw [← hB, ← hA]
      rfl
    have hCev : ((callRun env B "c" [] folder).2).events = B.events ++ [Ev.runCall] := rfl
    refine ⟨rfl, ?_, ?_⟩
    · simp only [] at h3
      rw [h3, hCev, hBev, countRunEv_append]
      simp [countRunEv]
    · simp only [] at h2
      rw [h2, hCev, hBev, countParseEv_append]
      simp [countParseEv]

/-- Witness for C1_attempt_budget at the three concrete oracles. -/
theorem C1_attempt_budget_witness :
    (analyze envParseFault 9 "uploads/r1" "r1" (some "q") (some "files") st0run).1 =
      .message parseFailMessage ∧
    countParseEv (analyze envParseFault 9 "uploads/r1" "r1" (some "q") (some "files")
      st0run).2.events = 3 ∧
    (analyze envAnswerFault 9 "uploads/r1" "r1" (some "q") (some "files") st0run).1 =
      .message answerFailMessage ∧
    countAnswerEv (analyze envAnswerFault 9 "uploads/r1" "r1" (some "q") (some "files")
      st0run).2.events = 3 ∧
    (analyze envExecFail 9 "uploads/r1" "r1" (some "q") (some "files") st0run).1 =
      .message scrapFailMessage ∧
    countRunEv (analyze envExecFail 9 "uploads/r1" "r1" (some "q") (some "files")
      st0run).2.events = 4 := by
  have hA := C1_attempt_budget.1 envParseFault 9 "uploads/r1" "r1" (some "q") (some "files")
    ⟨[]⟩ [] [] (fun i => ⟨"service unavailable", rfl⟩)
  have hB := C1_attempt_budget.2.1 envAnswerFault 9 "uploads/r1" "r1" (some "q") (some "files")
    ⟨[]⟩ [] [] rfl rfl (fun i => ⟨"service unavailable", rfl⟩) (fun i fs h => h)
  have hC := C1_attempt_budget.2.2 envExecFail 9 "uploads/r1" "r1" (some "q") (some "files")
    ⟨[]⟩ [] [] (fun i => rfl) (fun i => ⟨"boom", rfl⟩) (fun i fs h => h) rfl
  exact ⟨hA.1, hA.2.1, hB.1, hB.2.1, hC.1, hC.2.1⟩

end TDS
